import Mathlib

/-!
Verification of the Postgres-to-Excel SCADA export tool.

The development shallowly embeds the two core components of the
repository — the configuration resolver (`src/config_loader.py`) and the
template export engine (`src/excel_exporter.py`) — as executable Lean
functions, together with the spec-described batch orchestrator (which has
no counterpart under `src/`).  Python strings are embedded as `List Char`;
worksheets as lists of rows of optional cell values; the file system as a
partial map from path to worksheet content.
-/

namespace ViewExport

/-! ## Python string primitives

Faithful models of the Python `str` operations the config loader uses.
All operate on `List Char`.
-/

/-- The ASCII whitespace characters stripped by Python `str.strip()`. -/
def pyIsSpace (c : Char) : Bool :=
  c = ' ' || c = '\t' || c = '\n' || c = '\r' || c = '\x0b' || c = '\x0c'

/-- Python `str.strip()`: drop whitespace from both ends. -/
def pyStrip (l : List Char) : List Char :=
  ((l.dropWhile pyIsSpace).reverse.dropWhile pyIsSpace).reverse

/-- Python `str.lower()` (ASCII letters; other characters unchanged). -/
def pyLower (l : List Char) : List Char := l.map Char.toLower

/-- Python `str.upper()` (ASCII letters; other characters unchanged). -/
def pyUpper (l : List Char) : List Char := l.map Char.toUpper

/-- Python `str.isupper()`: at least one cased character and no lowercase
character.  The keys in the configuration file are ASCII, where the cased
characters are exactly the letters. -/
def pyIsUpper (l : List Char) : Bool :=
  l.any Char.isAlpha && l.all (fun c => !c.isLower)

/-- Python `s.split(sep, 1)` for a single-character separator, returning
the parts before and after the first occurrence.  Only used by the source
after checking that the separator occurs (`'=' in line`); when the
separator is absent it returns `(l, [])`. -/
def pySplitFirst (sep : Char) : List Char → List Char × List Char
  | [] => ([], [])
  | c :: cs =>
    if c = sep then ([], cs)
    else
      let p := pySplitFirst sep cs
      (c :: p.1, p.2)

/-- Python `s.split(sep)` for a single-character separator: split at every
occurrence, keeping empty segments. -/
def pySplit (sep : Char) : List Char → List (List Char)
  | [] => [[]]
  | c :: cs =>
    if c = sep then [] :: pySplit sep cs
    else
      match pySplit sep cs with
      | [] => [[c]]
      | h :: t => (c :: h) :: t

/-- Python substring test `pat in s`. -/
def containsSub (pat : List Char) : List Char → Bool
  | [] => pat.isEmpty
  | c :: cs => pat.isPrefixOf (c :: cs) || containsSub pat cs

/-- Numeric value of a list of decimal digit characters. -/
def digitsVal (l : List Char) : Nat :=
  l.foldl (fun a c => a * 10 + (c.toNat - '0'.toNat)) 0

/-- Python `int(s)` on a pre-stripped string: optional sign followed by a
non-empty run of decimal digits (the source always strips before calling). -/
def pyInt (l : List Char) : Option Int :=
  match l with
  | '+' :: rest =>
    if rest.isEmpty || !rest.all Char.isDigit then none
    else some (digitsVal rest : Int)
  | '-' :: rest =>
    if rest.isEmpty || !rest.all Char.isDigit then none
    else some (-(digitsVal rest : Int))
  | _ =>
    if l.isEmpty || !l.all Char.isDigit then none
    else some (digitsVal l : Int)

/-- Scanner for `pyReplace`, structurally recursive on a fuel argument
(each step consumes at least one character, so `s.length` fuel is always
enough; the zero-fuel case is unreachable at the call below). -/
def pyReplaceCore (pat rep : List Char) : Nat → List Char → List Char
  | _, [] => []
  | 0, s => s
  | fuel + 1, c :: cs =>
    if pat ≠ [] ∧ pat.isPrefixOf (c :: cs) then
      rep ++ pyReplaceCore pat rep fuel ((c :: cs).drop pat.length)
    else
      c :: pyReplaceCore pat rep fuel cs

/-- Python `s.replace(pat, rep)`: replace every non-overlapping occurrence
of `pat`, scanning left to right.  The source only calls this with the
non-empty literal tokens; for an empty `pat` this model returns `s`
unchanged (that case is unreachable in the embedded code). -/
def pyReplace (pat rep s : List Char) : List Char :=
  pyReplaceCore pat rep s.length s

/-! ## Date/time formatting

Models of the `datetime.now().strftime` format strings used by the
source (`%Y-%m-%d` and `%Y%m%d_%H%M%S`); `now` is passed explicitly. -/

/-- A wall-clock instant, standing for Python's `datetime.now()`. -/
structure PyDateTime where
  year : Nat
  month : Nat
  day : Nat
  hour : Nat
  minute : Nat
  second : Nat
deriving DecidableEq

/-- Decimal digits of a natural number, most significant first;
structurally recursive on a fuel argument (`n` itself is enough fuel,
since `n / 10 < n` for positive `n`). -/
def natToCharsCore : Nat → Nat → List Char → List Char
  | _, 0, acc => acc
  | 0, n, acc => Char.ofNat ('0'.toNat + n % 10) :: acc
  | fuel + 1, n, acc =>
    natToCharsCore fuel (n / 10) (Char.ofNat ('0'.toNat + n % 10) :: acc)

/-- Decimal representation of a natural number as characters. -/
def natToChars (n : Nat) : List Char :=
  if n = 0 then ['0'] else natToCharsCore n n []

/-- Zero-pad on the left to width `w` (as `strftime` does). -/
def padZero (w : Nat) (l : List Char) : List Char :=
  List.replicate (w - l.length) '0' ++ l

/-- Two-digit zero-padded field. -/
def fmt2 (n : Nat) : List Char := padZero 2 (natToChars n)

/-- Four-digit zero-padded field. -/
def fmt4 (n : Nat) : List Char := padZero 4 (natToChars n)

/-- `strftime('%Y-%m-%d')`. -/
def fmtDate (t : PyDateTime) : List Char :=
  fmt4 t.year ++ '-' :: fmt2 t.month ++ '-' :: fmt2 t.day

/-- `strftime('%Y%m%d_%H%M%S')`. -/
def fmtTimestamp (t : PyDateTime) : List Char :=
  fmt4 t.year ++ fmt2 t.month ++ fmt2 t.day ++ '_' ::
    (fmt2 t.hour ++ fmt2 t.minute ++ fmt2 t.second)

/-! ## Configuration resolver (`src/config_loader.py`) -/

/-- `ViewConfig` dataclass: one view-entry record. -/
structure ViewConfig where
  view_name : List Char
  template_name : List Char
  output_pattern : List Char
  start_row : Int
  start_col : Int
deriving DecidableEq

/-- `openpyxl.utils.column_index_from_string`: 1 to 3 letters `A`-`Z`
read in base 26 with `A = 1`; anything else raises (modelled as `none`). -/
def column_index_from_string (col : List Char) : Option Nat :=
  if col.isEmpty || decide (col.length > 3) ||
      !col.all (fun c => 'A' ≤ c && c ≤ 'Z') then none
  else some (col.foldl (fun a c => a * 26 + (c.toNat - 'A'.toNat + 1)) 0)

/-- `openpyxl.utils.coordinate_to_tuple`: split at the first digit; the
prefix is the column letters, the suffix must be a digit run (the row).
Returns `(row, col)`; failure of either part raises (modelled as `none`). -/
def coordinate_to_tuple (coord : List Char) : Option (Nat × Nat) :=
  let col := coord.takeWhile (fun c => !c.isDigit)
  let row := coord.dropWhile (fun c => !c.isDigit)
  if row.isEmpty || !row.all Char.isDigit then none
  else
    match column_index_from_string col with
    | none => none
    | some ci => some (digitsVal row, ci)

/-- `ConfigLoader._parse_position`: parse `"row,col"` (two Python ints,
unvalidated) or an Excel-style coordinate (via `coordinate_to_tuple` on the
upper-cased string); on any failure return the caller-supplied defaults. -/
def _parse_position (position_str : List Char) (default_row default_col : Int) :
    Int × Int :=
  if position_str.isEmpty then (default_row, default_col)
  else if position_str.contains ',' then
    let p := pySplitFirst ',' position_str
    match pyInt (pyStrip p.1), pyInt (pyStrip p.2) with
    | some r, some c => (r, c)
    | _, _ => (default_row, default_col)
  else if position_str.any Char.isAlpha && position_str.any Char.isDigit then
    match coordinate_to_tuple (pyUpper position_str) with
    | some rc => ((rc.1 : Int), (rc.2 : Int))
    | none => (default_row, default_col)
  else (default_row, default_col)

/-- The reserved key prefixes consumed by the global settings. -/
def reservedPrefixes : List (List Char) :=
  ["DB_".data, "TEMPLATES_".data, "OUTPUT_".data, "DEFAULT_".data,
   "AUTO_".data, "PRESERVE_".data]

/-- `key.startswith(('DB_', 'TEMPLATES_', ...))`. -/
def startsWithReserved (key : List Char) : Bool :=
  reservedPrefixes.any (fun p => p.isPrefixOf key)

/-- One iteration of the `_load_views_config` line loop: `none` when the
line is skipped (blank, comment, reserved or system key, or failing the
view-entry checks), otherwise the key and the parsed `ViewConfig`. -/
def parseViewLine (default_row default_col : Int) (rawLine : List Char) :
    Option (List Char × ViewConfig) :=
  let line := pyStrip rawLine
  if line.isEmpty || line.head? = some '#' then none
  else if !line.contains '=' then none
  else
    let kv := pySplitFirst '=' line
    let key := pyStrip kv.1
    let value := pyStrip kv.2
    if startsWithReserved key then none
    else if pyIsUpper key && decide (key.length > 3) then none
    else if !value.isEmpty && value.contains ':' &&
        containsSub ".xlsx".data value then
      let parts := pySplit ':' value
      let template_name := pyStrip (parts.getD 0 [])
      let output_pattern := pyStrip (parts.getD 1 [])
      if !(".xlsx".data.isSuffixOf (pyLower template_name)) then none
      else
        let pos :=
          if decide (3 ≤ parts.length) then
            _parse_position (pyStrip (parts.getD 2 [])) default_row default_col
          else (default_row, default_col)
        if !template_name.isEmpty && !output_pattern.isEmpty then
          some (key, ⟨key, template_name, output_pattern, pos.1, pos.2⟩)
        else none
    else none

/-- Python `dict` insert: overwrite in place on a duplicate key, append
otherwise (insertion order preserved). -/
def insertView : List (List Char × ViewConfig) → List Char → ViewConfig →
    List (List Char × ViewConfig)
  | [], k, vc => [(k, vc)]
  | (k', vc') :: rest, k, vc =>
    if k' = k then (k, vc) :: rest else (k', vc') :: insertView rest k vc

/-- `ConfigLoader._load_views_config` over the configuration file's lines:
fold the line parser into a registry keyed by the original key. -/
def _load_views_config (default_row default_col : Int)
    (lines : List (List Char)) : List (List Char × ViewConfig) :=
  lines.foldl
    (fun acc line =>
      match parseViewLine default_row default_col line with
      | none => acc
      | some kvc => insertView acc kvc.1 kvc.2)
    []

/-- `dict.get`: first (only) binding of a key in the registry. -/
def lookupView (views : List (List Char × ViewConfig)) (name : List Char) :
    Option ViewConfig :=
  match views with
  | [] => none
  | (k, vc) :: rest => if k = name then some vc else lookupView rest name

/-- `ConfigLoader.generate_output_filename`: for an unknown view return the
fallback `{view_name}_{YYYYMMDD_HHMMSS}.xlsx` name; otherwise substitute
every occurrence of the two recognized tokens in the entry's pattern. -/
def generate_output_filename (views : List (List Char × ViewConfig))
    (now : PyDateTime) (view_name : List Char) : List Char :=
  match lookupView views view_name with
  | none => view_name ++ '_' :: fmtTimestamp now ++ ".xlsx".data
  | some config =>
    pyReplace "{timestamp}".data (fmtTimestamp now)
      (pyReplace "{date}".data (fmtDate now) config.output_pattern)

/-! ## Template export engine (`src/excel_exporter.py`)

A worksheet is a 1-indexed list of rows, each a 1-indexed list of cells;
an empty cell and a cell whose value is Python `None` both read back as
`none`, matching `openpyxl`.  The workbook is modelled by its data sheet:
every engine operation goes through `self.worksheet` (sheet selection and
renaming in `load_template` do not affect cell values).  The file system
is a partial map from path to sheet content; `PyEnv` carries the
environment failure modes of the `except` branches in the source
(`load_workbook`, `delete_rows` and `workbook.save` raising). -/

/-- Sheet content: rows of optional cell values. -/
abbrev Worksheet (α : Type) := List (List (Option α))

/-- File system: spreadsheet files by path. -/
abbrev Fs (α : Type) := String → Option (Worksheet α)

/-- Failure modes of the external libraries, one per `except` branch. -/
structure PyEnv where
  loadRaises : Bool
  deleteRaises : Bool
  saveRaises : Bool

/-- `ExcelExportConfig` dataclass. -/
structure ExcelExportConfig where
  template_path : String
  output_path : String
  sheet_name : String
  start_row : Nat
  start_col : Nat
  preserve_formatting : Bool
  auto_adjust_columns : Bool

/-- `ExcelExporter` state: the configuration and the loaded sheet
(`None` before `load_template` succeeds). -/
structure ExcelExporter (α : Type) where
  config : ExcelExportConfig
  worksheet : Option (Worksheet α)

/-- A `pandas.DataFrame`: column labels and rows of optional values
(`none` embeds SQL `NULL`). -/
structure DataFrame (α : Type) where
  columns : List α
  rows : List (List (Option α))

/-- `df.empty`: true when either axis has length zero. -/
def DataFrame.empty (df : DataFrame α) : Bool :=
  df.rows.isEmpty || df.columns.isEmpty

/-- The result dictionary of `export_dataframe_to_template`. -/
structure ExportResult where
  success : Bool
  message : String
  output_path : Option String
  records_count : Option Nat
deriving DecidableEq

/-- Element at index `n` of a list, with default `dflt` out of range. -/
def nthD (dflt : β) : List β → Nat → β
  | [], _ => dflt
  | x :: _, 0 => x
  | _ :: xs, n + 1 => nthD dflt xs n

/-- Write `v` at index `n`, padding with `d` when the list is shorter. -/
def setPad (d : β) : List β → Nat → β → List β
  | [], 0, v => [v]
  | [], n + 1, v => d :: setPad d [] n v
  | _x :: xs, 0, v => v :: xs
  | x :: xs, n + 1, v => x :: setPad d xs n v

/-- `ws.cell(row, column, value)` for 1-based `r`, `c`: create the cell
(padding rows and cells as `openpyxl` does) and store the value. -/
def setCell (ws : Worksheet α) (r c : Nat) (v : Option α) : Worksheet α :=
  setPad [] ws (r - 1) (setPad none (nthD [] ws (r - 1)) (c - 1) v)

/-- Value of the cell at 1-based `(r, c)`; `none` when absent or `None`. -/
def readCell (ws : Worksheet α) (r c : Nat) : Option α :=
  nthD none (nthD [] ws (r - 1)) (c - 1)

/-- `ws.max_row`: `openpyxl` reports at least 1 even for an empty sheet. -/
def max_row (ws : Worksheet α) : Nat := max ws.length 1

/-- `ws.delete_rows(idx, amount)`: remove `amount` rows starting at the
1-based row `idx`; rows below shift upward. -/
def delete_rows (ws : Worksheet α) (idx amount : Nat) : Worksheet α :=
  ws.take (idx - 1) ++ ws.drop (idx - 1 + amount)

/-- Python `x or d` for an optional argument defaulted in the source
(`start_row or self.config.start_row`): `None` and `0` are falsy. -/
def pyOrNat (o : Option Nat) (d : Nat) : Nat :=
  match o with
  | some n => if n = 0 then d else n
  | none => d

/-- `ExcelExporter.load_template`: fail when the template path does not
exist or `load_workbook` raises; otherwise load the sheet. -/
def load_template (env : PyEnv) (fs : Fs α) (ex : ExcelExporter α) :
    ExcelExporter α × Bool :=
  match fs ex.config.template_path with
  | none => (ex, false)
  | some tpl =>
    if env.loadRaises then (ex, false)
    else ({ ex with worksheet := some tpl }, true)

/-- `ExcelExporter.clear_existing_data`: with a loaded sheet, delete rows
`start_row` through `end_row` inclusive when the range is non-empty
(defaults: the configured start row and the sheet's `max_row`); succeed
without touching the sheet otherwise.  A raising `delete_rows` is caught
and reported as `False`. -/
def clear_existing_data (env : PyEnv) (ex : ExcelExporter α)
    (start_row? end_row? : Option Nat) : ExcelExporter α × Bool :=
  match ex.worksheet with
  | none => (ex, false)
  | some ws =>
    let start_row := pyOrNat start_row? ex.config.start_row
    let end_row := pyOrNat end_row? (max_row ws)
    if start_row ≤ end_row then
      if env.deleteRaises then (ex, false)
      else
        ({ ex with
            worksheet := some (delete_rows ws start_row (end_row - start_row + 1)) },
          true)
    else (ex, true)

/-- Write one table row at row `r`, columns `c`, `c+1`, …; `openpyxl`
raises (here `none`) when a cell is addressed with a zero row or column,
which in the source's loop can only happen on the very first written
value. -/
def write_row : Worksheet α → Nat → Nat → List (Option α) → Option (Worksheet α)
  | ws, _, _, [] => some ws
  | ws, r, c, v :: vs =>
    if r = 0 || c = 0 then none
    else write_row (setCell ws r c v) r (c + 1) vs

/-- Write the table rows at rows `r`, `r+1`, …, each starting at column
`c`, propagating a raising cell write. -/
def write_rows : Worksheet α → Nat → Nat → List (List (Option α)) →
    Option (Worksheet α)
  | ws, _, _, [] => some ws
  | ws, r, c, row :: rest =>
    match write_row ws r c row with
    | none => none
    | some ws' => write_rows ws' (r + 1) c rest

/-- `openpyxl.utils.dataframe.dataframe_to_rows(df, index=False, header=h)`:
the data rows, preceded by the column labels when `h` is set. -/
def dataframe_to_rows (df : DataFrame α) (header : Bool) :
    List (List (Option α)) :=
  (if header then [df.columns.map some] else []) ++ df.rows

/-- `ExcelExporter.export_data`: fail when no sheet is loaded or the frame
is empty; otherwise write the rows from the configured anchor (any raise
in the write loop is caught and reported as `False`; a raise can only
happen before the first cell is written, so the sheet is unchanged). -/
def export_data (ex : ExcelExporter α) (df : DataFrame α)
    (include_headers : Bool) : ExcelExporter α × Bool :=
  match ex.worksheet with
  | none => (ex, false)
  | some ws =>
    if df.empty then (ex, false)
    else
      match write_rows ws ex.config.start_row ex.config.start_col
          (dataframe_to_rows df include_headers) with
      | none => (ex, false)
      | some ws' => ({ ex with worksheet := some ws' }, true)

/-- `ExcelExporter.auto_adjust_columns_width`: only column-width metadata
is touched, never cell values, so on sheet content it is the identity. -/
def auto_adjust_columns_width (ws : Worksheet α) : Worksheet α := ws

/-- Store a file at a path. -/
def updateFs (fs : Fs α) (p : String) (ws : Worksheet α) : Fs α :=
  fun q => if q = p then some ws else fs q

/-- `ExcelExporter.save`: adjust widths when configured, then persist the
workbook to the output path (creating directories does not change any
file's content); fails when no workbook is loaded or the write raises. -/
def save (env : PyEnv) (fs : Fs α) (ex : ExcelExporter α) : Fs α × Bool :=
  match ex.worksheet with
  | none => (fs, false)
  | some ws =>
    if env.saveRaises then (fs, false)
    else
      (updateFs fs ex.config.output_path
        (if ex.config.auto_adjust_columns then auto_adjust_columns_width ws
         else ws), true)

/-- `ExcelExporter.export_dataframe_to_template`: the full pipeline.  The
return value of `clear_existing_data` is discarded by the source. -/
def export_dataframe_to_template (env : PyEnv) (fs : Fs α)
    (ex : ExcelExporter α) (df : DataFrame α)
    (clear_existing include_headers : Bool) :
    Fs α × ExcelExporter α × ExportResult :=
  let l := load_template env fs ex
  if !l.2 then (fs, l.1, ⟨false, "Ошибка загрузки шаблона", none, none⟩)
  else
    let ex2 := if clear_existing then (clear_existing_data env l.1 none none).1
               else l.1
    let e := export_data ex2 df include_headers
    if !e.2 then (fs, e.1, ⟨false, "Ошибка экспорта данных", none, none⟩)
    else
      let s := save env fs e.1
      if !s.2 then (s.1, e.1, ⟨false, "Ошибка сохранения файла", none, none⟩)
      else
        (s.1, e.1,
          ⟨true, "Данные успешно экспортированы",
            some ex.config.output_path, some df.rows.length⟩)

/-- Row `r` (1-based) of a sheet, empty when absent. -/
def rowAt (ws : Worksheet α) (r : Nat) : List (Option α) :=
  nthD [] ws (r - 1)

/-- The cells of one row at columns `c`, …, `c+m-1`. -/
def readCellsRow (row : List (Option α)) : Nat → Nat → List (Option α)
  | _, 0 => []
  | c, m + 1 => nthD none row (c - 1) :: readCellsRow row (c + 1) m

/-- The `n × m` data region of a sheet anchored at 1-based `(r, c)`. -/
def readRegion (ws : Worksheet α) : Nat → Nat → Nat → Nat →
    List (List (Option α))
  | _, _, 0, _ => []
  | r, c, n + 1, m => readCellsRow (rowAt ws r) c m :: readRegion ws (r + 1) c n m

/-! ## Batch orchestrator (spec §4.3) -/

/-- Modelled from the spec: the repository has no batch orchestrator under
`src/` (the UI exports a single selected view per click), so §4.3's
per-view step is modelled from the spec's words: resolve the entry
(missing → "configuration not found"), check the template file before
querying the data source (missing → "template not found"), fetch the table
(failure → a data-source message, empty → a "no data" outcome), compute
the output name via the registry's pattern substitution, and invoke the
export engine. -/
def process_view (registry : List (List Char × ViewConfig))
    (data_source : List Char → Option (DataFrame α))
    (templates_root output_root : String) (env : PyEnv) (now : PyDateTime)
    (fs : Fs α) (name : List Char) : Fs α × ExportResult :=
  match lookupView registry name with
  | none => (fs, ⟨false, "configuration not found", none, none⟩)
  | some entry =>
    let template_path := templates_root ++ String.mk entry.template_name
    if (fs template_path).isNone then
      (fs, ⟨false, "template not found", none, none⟩)
    else
      match data_source name with
      | none => (fs, ⟨false, "data source error", none, none⟩)
      | some df =>
        if df.empty then (fs, ⟨false, "no data", none, none⟩)
        else
          let output_path :=
            output_root ++ String.mk (generate_output_filename registry now name)
          let cfg : ExcelExportConfig :=
            ⟨template_path, output_path, "Data", entry.start_row.toNat,
              entry.start_col.toNat, true, true⟩
          let r := export_dataframe_to_template env fs ⟨cfg, none⟩ df true false
          (r.1, r.2.2)

/-- Modelled from the spec: §4.3's batch loop, strictly sequential,
recording one outcome per selected view name in the input order and
continuing past per-view failures. -/
def run_batch (registry : List (List Char × ViewConfig))
    (data_source : List Char → Option (DataFrame α))
    (templates_root output_root : String) (env : PyEnv) (now : PyDateTime) :
    Fs α → List (List Char) → Fs α × List ExportResult
  | fs, [] => (fs, [])
  | fs, name :: rest =>
    let r := process_view registry data_source templates_root output_root
      env now fs name
    let rr := run_batch registry data_source templates_root output_root
      env now r.1 rest
    (rr.1, r.2 :: rr.2)

/-! ## Lemmas about the string primitives -/

theorem contains_append_cons_self (a b : List Char) (c : Char) :
    (a ++ c :: b).contains c = true := by
  induction a with
  | nil => simp
  | cons x xs ih => simpa using Or.inr (by simpa using ih)

theorem pySplitFirst_append (a b : List Char) (c : Char)
    (h : a.contains c = false) : pySplitFirst c (a ++ c :: b) = (a, b) := by
  induction a with
  | nil => simp [pySplitFirst]
  | cons x xs ih =>
    simp only [List.contains_cons, Bool.or_eq_false_iff] at h
    have hx : ¬x = c := by
      intro hxc
      subst hxc
      simp at h
    simp [pySplitFirst, hx, ih h.2]

theorem pySplit_no_sep (a : List Char) (c : Char) (h : a.contains c = false) :
    pySplit c a = [a] := by
  induction a with
  | nil => simp [pySplit]
  | cons x xs ih =>
    simp only [List.contains_cons, Bool.or_eq_false_iff] at h
    have hx : ¬x = c := by
      intro hxc
      subst hxc
      simp at h
    simp [pySplit, hx, ih h.2]

theorem pySplit_append (a b : List Char) (c : Char)
    (h : a.contains c = false) : pySplit c (a ++ c :: b) = a :: pySplit c b := by
  induction a with
  | nil => simp [pySplit]
  | cons x xs ih =>
    simp only [List.contains_cons, Bool.or_eq_false_iff] at h
    have hx : ¬x = c := by
      intro hxc
      subst hxc
      simp at h
    have hrec : pySplit c (xs.append (c :: b)) = xs :: pySplit c b := ih h.2
    simp only [List.cons_append, pySplit, hx, if_false]
    rw [hrec]

theorem pyReplaceCore_fuel (pat rep : List Char) (fuel : Nat) :
    ∀ (s : List Char), s.length ≤ fuel →
      pyReplaceCore pat rep fuel s = pyReplace pat rep s := by
  induction fuel using Nat.strong_induction_on with
  | _ fuel ih =>
    intro s hs
    match s with
    | [] => cases fuel <;> rfl
    | c :: cs =>
      obtain ⟨f, rfl⟩ : ∃ f, fuel = f + 1 := by
        cases fuel with
        | zero => simp at hs
        | succ f => exact ⟨f, rfl⟩
      simp only [List.length_cons] at hs
      show pyReplaceCore pat rep (f + 1) (c :: cs) =
        pyReplaceCore pat rep (c :: cs).length (c :: cs)
      simp only [List.length_cons, pyReplaceCore]
      by_cases h : pat ≠ [] ∧ pat.isPrefixOf (c :: cs) = true
      · rw [if_pos h, if_pos h]
        have hp1 : 1 ≤ pat.length := List.length_pos.mpr h.1
        have hdl : ((c :: cs).drop pat.length).length ≤ cs.length := by
          simp only [List.length_drop, List.length_cons]
          omega
        have e1 := ih f (by omega) ((c :: cs).drop pat.length)
          (by simp only [List.length_drop, List.length_cons]; omega)
        have e2 := ih cs.length (by omega) ((c :: cs).drop pat.length) hdl
        rw [e1, ← e2]
      · rw [if_neg h, if_neg h]
        have e1 := ih f (by omega) cs (by omega)
        have e2 := ih cs.length (by omega) cs (le_refl _)
        rw [e1, ← e2]

theorem pyReplace_nil (pat rep : List Char) : pyReplace pat rep [] = [] := rfl

theorem pyReplace_cons_nomatch (pat rep : List Char) (c : Char) (cs : List Char)
    (h : pat.isPrefixOf (c :: cs) = false) :
    pyReplace pat rep (c :: cs) = c :: pyReplace pat rep cs := by
  show pyReplaceCore pat rep (c :: cs).length (c :: cs) = _
  simp only [List.length_cons, pyReplaceCore]
  rw [if_neg (by simp [h])]
  rw [pyReplaceCore_fuel pat rep cs.length cs (le_refl _)]

theorem pyReplace_prefix_match (pat rep rest : List Char) (hp : pat ≠ []) :
    pyReplace pat rep (pat ++ rest) = rep ++ pyReplace pat rep rest := by
  match pat, hp with
  | p :: ps, _ =>
    have hpre : (p :: ps).isPrefixOf ((p :: ps) ++ rest) = true := by
      simp [List.isPrefixOf_iff_prefix]
    show pyReplaceCore (p :: ps) rep ((p :: ps) ++ rest).length ((p :: ps) ++ rest) = _
    have hlen : ((p :: ps) ++ rest).length = (ps ++ rest).length + 1 := by
      simp
    rw [hlen]
    rw [show (p :: ps) ++ rest = p :: (ps ++ rest) from rfl]
    simp only [pyReplaceCore]
    rw [if_pos ⟨by simp, by simpa using hpre⟩]
    have hdrop : (p :: (ps ++ rest)).drop (p :: ps).length = rest := by
      simpa using List.drop_left ps rest
    rw [hdrop]
    congr 1
    apply pyReplaceCore_fuel
    simp

theorem pyReplace_of_not_contains (pat rep s : List Char)
    (h : containsSub pat s = false) : pyReplace pat rep s = s := by
  induction s with
  | nil => exact pyReplace_nil pat rep
  | cons c cs ih =>
    simp only [containsSub, Bool.or_eq_false_iff] at h
    rw [pyReplace_cons_nomatch _ _ _ _ h.1, ih h.2]

theorem containsSub_false_of_head_not_mem (c0 : Char) (pt s : List Char)
    (h : c0 ∉ s) : containsSub (c0 :: pt) s = false := by
  induction s with
  | nil => simp [containsSub]
  | cons c cs ih =>
    simp only [List.mem_cons, not_or] at h
    simp only [containsSub, Bool.or_eq_false_iff]
    constructor
    · simp only [List.isPrefixOf, Bool.and_eq_false_iff]
      left
      simpa using h.1
    · exact ih h.2

theorem pyReplace_append_left (pat rep a s : List Char)
    (ha : ∀ t ∈ a.tails, t ≠ [] → pat.isPrefixOf (t ++ s) = false) :
    pyReplace pat rep (a ++ s) = a ++ pyReplace pat rep s := by
  induction a with
  | nil => simp
  | cons x xs ih =>
    have hx : pat.isPrefixOf ((x :: xs) ++ s) = false := by
      apply ha (x :: xs) _ (by simp)
      simp [List.tails]
    rw [List.cons_append, pyReplace_cons_nomatch _ _ _ _ (by simpa using hx)]
    rw [ih (fun t ht hne => ha t (by simp [List.tails, ht]) hne)]
    simp

theorem ofNat_mod_ten_digit (k : Nat) :
    (Char.ofNat ('0'.toNat + k % 10)).isDigit = true := by
  have h10 : k % 10 < 10 := Nat.mod_lt _ (by omega)
  set m := k % 10 with hm
  interval_cases m <;> decide

theorem natToCharsCore_digits (fuel : Nat) :
    ∀ (n : Nat) (acc : List Char), (∀ x ∈ acc, x.isDigit = true) →
      ∀ c ∈ natToCharsCore fuel n acc, c.isDigit = true := by
  induction fuel with
  | zero =>
    intro n acc hacc c hc
    match n with
    | 0 =>
      simp only [natToCharsCore] at hc
      exact hacc c hc
    | m + 1 =>
      simp only [natToCharsCore] at hc
      rcases List.mem_cons.mp hc with hx | hx
      · subst hx
        exact ofNat_mod_ten_digit (m + 1)
      · exact hacc c hx
  | succ f ihf =>
    intro n acc hacc c hc
    match n with
    | 0 =>
      simp only [natToCharsCore] at hc
      exact hacc c hc
    | m + 1 =>
      simp only [natToCharsCore] at hc
      refine ihf ((m + 1) / 10) _ ?_ c hc
      intro x hx
      rcases List.mem_cons.mp hx with hx | hx
      · subst hx
        exact ofNat_mod_ten_digit (m + 1)
      · exact hacc x hx

theorem natToChars_digits (n : Nat) : ∀ c ∈ natToChars n, c.isDigit = true := by
  intro c hc
  unfold natToChars at hc
  by_cases h0 : n = 0
  · simp [h0] at hc
    subst hc
    decide
  · simp only [h0, if_false] at hc
    exact natToCharsCore_digits n n [] (by simp) c hc

theorem fmt2_chars (n : Nat) : ∀ c ∈ fmt2 n, c.isDigit = true := by
  intro c hc
  unfold fmt2 padZero at hc
  rcases List.mem_append.mp hc with hc | hc
  · rw [List.eq_of_mem_replicate hc]
    decide
  · exact natToChars_digits n c hc

theorem fmt4_chars (n : Nat) : ∀ c ∈ fmt4 n, c.isDigit = true := by
  intro c hc
  unfold fmt4 padZero at hc
  rcases List.mem_append.mp hc with hc | hc
  · rw [List.eq_of_mem_replicate hc]
    decide
  · exact natToChars_digits n c hc

theorem brace_not_mem_fmtDate (t : PyDateTime) : '{' ∉ fmtDate t := by
  intro hc
  have H : '{' ∈ fmt4 t.year ∨ '{' = '-' ∨ '{' ∈ fmt2 t.month ∨ '{' ∈ fmt2 t.day := by
    simpa [fmtDate, List.mem_append, List.mem_cons, or_assoc] using hc
  rcases H with h | h | h | h
  · exact absurd (fmt4_chars t.year _ h) (by decide)
  · exact absurd h (by decide)
  · exact absurd (fmt2_chars t.month _ h) (by decide)
  · exact absurd (fmt2_chars t.day _ h) (by decide)

/-! ## Anchor parsing (claim C4) -/

theorem _parse_position_fallback (s : List Char) (dr dc : Int)
    (hc : s.contains ',' = false)
    (hm : s.any Char.isAlpha = false ∨ s.any Char.isDigit = false) :
    _parse_position s dr dc = (dr, dc) := by
  unfold _parse_position
  have hmem : ',' ∉ s := by simpa using hc
  rcases hm with hm | hm <;> simp [hc, hm, hmem]

theorem _parse_position_excel_fallback (s : List Char) (dr dc : Int)
    (hc : s.contains ',' = false)
    (hct : coordinate_to_tuple (pyUpper s) = none) :
    _parse_position s dr dc = (dr, dc) := by
  unfold _parse_position
  have hmem : ',' ∉ s := by simpa using hc
  simp [hc, hct, hmem]

theorem _parse_position_comma (a b : List Char) (dr dc ra rb : Int)
    (ha : a.contains ',' = false)
    (hia : pyInt (pyStrip a) = some ra) (hib : pyInt (pyStrip b) = some rb) :
    _parse_position (a ++ ',' :: b) dr dc = (ra, rb) := by
  unfold _parse_position
  rw [pySplitFirst_append a b ',' ha]
  have hne : (a ++ ',' :: b).isEmpty = false := by
    cases a <;> simp
  rw [hne]
  simp only [Bool.false_eq_true, if_false, contains_append_cons_self, if_true]
  rw [hia, hib]

/-- C4, corrected: the `≥ 1` anchor invariant is not enforced — a `row,col`
anchor segment parses to the raw integers, so `0,0` produces a `ViewEntry`
with `anchor_row = 0` and `anchor_col = 0`, with no fallback to the
defaults `(2, 1)`. -/
theorem claim_C4_counterexample :
    _load_views_config 2 1 ["sales=t.xlsx:o.xlsx:0,0".data] =
      [("sales".data,
        ⟨"sales".data, "t.xlsx".data, "o.xlsx".data, 0, 0⟩)] ∧
    ¬(1 ≤ (0 : Int)) := by
  constructor
  · decide
  · decide

/-- C4 (amended): anchor parsing yields `"2,3" ↦ (2,3)`, `"B3" ↦ (3,2)`
(base-26 letters, `A = 1`), `"ZZ1" ↦ (1,702)`, and any segment that fails
to parse (no digits, no letters in the Excel form, or an unparsable
coordinate) falls back to the caller-supplied defaults; but the `row,col`
form returns the parsed integers unvalidated (possibly zero or negative),
so no `anchor_row ≥ 1`/`anchor_col ≥ 1` invariant holds. -/
theorem claim_C4 :
    (∀ dr dc : Int, _parse_position "2,3".data dr dc = (2, 3))
  ∧ (∀ dr dc : Int, _parse_position "B3".data dr dc = (3, 2))
  ∧ (∀ dr dc : Int, _parse_position "ZZ1".data dr dc = (1, 702))
  ∧ (∀ dr dc : Int, _parse_position "xyz".data dr dc = (dr, dc))
  ∧ (∀ (s : List Char) (dr dc : Int), s.contains ',' = false →
      s.any Char.isAlpha = false ∨ s.any Char.isDigit = false →
      _parse_position s dr dc = (dr, dc))
  ∧ (∀ (s : List Char) (dr dc : Int), s.contains ',' = false →
      coordinate_to_tuple (pyUpper s) = none →
      _parse_position s dr dc = (dr, dc))
  ∧ (∀ (a b : List Char) (dr dc ra rb : Int), a.contains ',' = false →
      pyInt (pyStrip a) = some ra → pyInt (pyStrip b) = some rb →
      _parse_position (a ++ ',' :: b) dr dc = (ra, rb)) := by
  refine ⟨?_, ?_, ?_, ?_, ?_, ?_, ?_⟩
  · intro dr dc
    rfl
  · intro dr dc
    rfl
  · intro dr dc
    rfl
  · intro dr dc
    rfl
  · exact _parse_position_fallback
  · exact _parse_position_excel_fallback
  · exact _parse_position_comma

/-- Witness for C4 at concrete inputs. -/
theorem claim_C4_witness :
    _parse_position "2,3".data 9 9 = (2, 3) ∧
    _parse_position "xy".data 7 8 = (7, 8) ∧
    _parse_position ("-4".data ++ ',' :: "0".data) 7 8 = (-4, 0) := by
  refine ⟨claim_C4.1 9 9, ?_, ?_⟩
  · exact claim_C4.2.2.2.2.1 "xy".data 7 8 (by decide) (Or.inr (by decide))
  · exact claim_C4.2.2.2.2.2.2 "-4".data "0".data 7 8 (-4) 0
      (by decide) (by decide) (by decide)

/-! ## Output filename generation (claims C7, C8) -/

/-- C7, corrected: for a view name absent from the registry,
`generate_output_filename` does not fail — it returns the fallback
`{view_name}_{YYYYMMDD_HHMMSS}.xlsx` filename. -/
theorem claim_C7_counterexample :
    generate_output_filename [] ⟨2025, 1, 2, 3, 4, 5⟩ "missing".data =
      "missing_20250102_030405.xlsx".data := by
  decide

/-- C7 (amended): for every view name absent from the registry,
`generate_output_filename` returns the default timestamped filename
`view_name ++ "_" ++ YYYYMMDD_HHMMSS ++ ".xlsx"` instead of failing with
`NotFound`. -/
theorem claim_C7 (views : List (List Char × ViewConfig)) (now : PyDateTime)
    (name : List Char) (h : lookupView views name = none) :
    generate_output_filename views now name =
      name ++ '_' :: fmtTimestamp now ++ ".xlsx".data := by
  unfold generate_output_filename
  rw [h]

/-- Witness for C7 on an empty registry. -/
theorem claim_C7_witness :
    generate_output_filename [] ⟨2026, 10, 12, 0, 0, 0⟩ "v".data =
      "v".data ++ '_' :: fmtTimestamp ⟨2026, 10, 12, 0, 0, 0⟩ ++ ".xlsx".data :=
  claim_C7 [] ⟨2026, 10, 12, 0, 0, 0⟩ "v".data rfl

/-- C8, corrected: there is no time-only token — a pattern containing
`{time}` is returned with that token left verbatim, not replaced by an
HHMMSS field. -/
theorem claim_C8_counterexample :
    generate_output_filename
      [("v".data, ⟨"v".data, "t.xlsx".data, "report_{time}.xlsx".data, 2, 1⟩)]
      ⟨2025, 1, 2, 3, 4, 5⟩ "v".data = "report_{time}.xlsx".data ∧
    "report_{time}.xlsx".data ≠ "report_030405.xlsx".data := by
  constructor
  · decide
  · decide

/-- C8 (amended): for every view present in the registry the result is the
pattern with every occurrence of `{date}` replaced by the current date as
YYYY-MM-DD and then every occurrence of `{timestamp}` replaced as
YYYYMMDD_HHMMSS, with no escaping; a pattern containing neither token
(including one with `{time}` or any other unrecognized token) is returned
verbatim; the spec's example pattern `sales_{date}.xlsx` yields
`sales_` ++ date ++ `.xlsx`. -/
theorem claim_C8 (views : List (List Char × ViewConfig)) (name : List Char)
    (cfg : ViewConfig) (now : PyDateTime)
    (h : lookupView views name = some cfg) :
    generate_output_filename views now name =
      pyReplace "{timestamp}".data (fmtTimestamp now)
        (pyReplace "{date}".data (fmtDate now) cfg.output_pattern)
  ∧ (containsSub "{date}".data cfg.output_pattern = false →
      containsSub "{timestamp}".data cfg.output_pattern = false →
      generate_output_filename views now name = cfg.output_pattern)
  ∧ (cfg.output_pattern = "sales_{date}.xlsx".data →
      generate_output_filename views now name =
        "sales_".data ++ fmtDate now ++ ".xlsx".data) := by
  have hbase : generate_output_filename views now name =
      pyReplace "{timestamp}".data (fmtTimestamp now)
        (pyReplace "{date}".data (fmtDate now) cfg.output_pattern) := by
    unfold generate_output_filename
    rw [h]
  refine ⟨hbase, ?_, ?_⟩
  · intro h1 h2
    rw [hbase, pyReplace_of_not_contains _ _ _ h1,
      pyReplace_of_not_contains _ _ _ h2]
  · intro hp
    rw [hbase, hp]
    rw [show "sales_{date}.xlsx".data =
      "sales_".data ++ ("{date}".data ++ ".xlsx".data) from by decide]
    rw [pyReplace_append_left _ _ _ _ (by decide)]
    rw [pyReplace_prefix_match _ _ _ (by decide)]
    rw [pyReplace_of_not_contains "{date}".data (fmtDate now) ".xlsx".data
      (by decide)]
    have hnb : containsSub "{timestamp}".data
        ("sales_".data ++ (fmtDate now ++ ".xlsx".data)) = false := by
      apply containsSub_false_of_head_not_mem
      intro hmem
      rcases List.mem_append.mp hmem with hm | hm
      · exact absurd hm (by decide)
      · rcases List.mem_append.mp hm with hm | hm
        · exact brace_not_mem_fmtDate now hm
        · exact absurd hm (by decide)
    rw [pyReplace_of_not_contains _ _ _ hnb]
    simp

/-- Witness for C8 at a concrete registry, pattern and instant. -/
theorem claim_C8_witness :
    generate_output_filename
      [("v".data, ⟨"v".data, "t.xlsx".data, "sales_{date}.xlsx".data, 2, 1⟩)]
      ⟨2025, 1, 2, 3, 4, 5⟩ "v".data =
      "sales_".data ++ fmtDate ⟨2025, 1, 2, 3, 4, 5⟩ ++ ".xlsx".data :=
  (claim_C8
    [("v".data, ⟨"v".data, "t.xlsx".data, "sales_{date}.xlsx".data, 2, 1⟩)]
    "v".data ⟨"v".data, "t.xlsx".data, "sales_{date}.xlsx".data, 2, 1⟩
    ⟨2025, 1, 2, 3, 4, 5⟩ (by decide)).2.2 (by decide)

/-! ## Configuration grammar (claim C3) -/

theorem _load_views_config_single (d r : Int) (l : List Char) :
    _load_views_config d r [l] =
      match parseViewLine d r l with
      | none => []
      | some kvc => [(kvc.1, kvc.2)] := by
  simp only [_load_views_config, List.foldl]
  cases parseViewLine d r l <;> simp [insertView]

theorem head?_append_cons (key V : List Char) (c : Char) (h : key ≠ []) :
    (key ++ (c :: V)).head? = key.head? := by
  match key, h with
  | k :: ks, _ => simp

theorem parseViewLine_valid (key tmpl out anch : List Char) (d r : Int)
    (hkey_ne : key ≠ []) (hkeyc : key.contains '=' = false)
    (hkey_s : pyStrip key = key) (hkey_h : key.head? ≠ some '#')
    (hres : startsWithReserved key = false)
    (hup : (pyIsUpper key && decide (key.length > 3)) = false)
    (htm_s : pyStrip tmpl = tmpl) (htm_c : tmpl.contains ':' = false)
    (hext : ".xlsx".data.isSuffixOf (pyLower tmpl) = true)
    (hin : containsSub ".xlsx".data
      (tmpl ++ (':' :: (out ++ (':' :: anch)))) = true)
    (htm_ne : tmpl ≠ [])
    (hout_s : pyStrip out = out) (hout_c : out.contains ':' = false)
    (hout_ne : out ≠ [])
    (hanch_s : pyStrip anch = anch) (hanch_c : anch.contains ':' = false)
    (hV_s : pyStrip (tmpl ++ (':' :: (out ++ (':' :: anch)))) =
      tmpl ++ (':' :: (out ++ (':' :: anch))))
    (hline_s :
      pyStrip (key ++ ('=' :: (tmpl ++ (':' :: (out ++ (':' :: anch)))))) =
        key ++ ('=' :: (tmpl ++ (':' :: (out ++ (':' :: anch)))))) :
    parseViewLine d r (key ++ ('=' :: (tmpl ++ (':' :: (out ++ (':' :: anch)))))) =
      some (key, ⟨key, tmpl, out, (_parse_position anch d r).1,
        (_parse_position anch d r).2⟩) := by
  have hempty : (key ++ ('=' :: (tmpl ++ (':' :: (out ++ (':' :: anch)))))).isEmpty
      = false := by
    cases key <;> simp
  have hhead := head?_append_cons key (tmpl ++ (':' :: (out ++ (':' :: anch)))) '='
    hkey_ne
  have hcont : (key ++ ('=' :: (tmpl ++ (':' :: (out ++ (':' :: anch)))))).contains
      '=' = true := contains_append_cons_self _ _ _
  have hsplit := pySplitFirst_append key
    (tmpl ++ (':' :: (out ++ (':' :: anch)))) '=' hkeyc
  have hVempty : (tmpl ++ (':' :: (out ++ (':' :: anch)))).isEmpty = false := by
    cases tmpl <;> simp
  have hVcont : (tmpl ++ (':' :: (out ++ (':' :: anch)))).contains ':' = true :=
    contains_append_cons_self _ _ _
  have hparts : pySplit ':' (tmpl ++ (':' :: (out ++ (':' :: anch)))) =
      [tmpl, out, anch] := by
    rw [pySplit_append tmpl _ ':' htm_c, pySplit_append out _ ':' hout_c,
      pySplit_no_sep anch ':' hanch_c]
  have htm_e : tmpl.isEmpty = false := by
    cases tmpl with
    | nil => exact absurd rfl htm_ne
    | cons a b => rfl
  have hout_e : out.isEmpty = false := by
    cases out with
    | nil => exact absurd rfl hout_ne
    | cons a b => rfl
  simp only [parseViewLine, hline_s, hempty, hhead, hcont, hsplit, hkey_s, hV_s,
    hres, hup, hVempty, hVcont, hin, hparts, List.getD_cons_zero,
    List.getD_cons_succ, htm_s, hout_s, hanch_s, hext, htm_e, hout_e,
    Bool.false_or, Bool.or_false, Bool.and_self, Bool.true_and, Bool.and_true,
    Bool.not_true, Bool.not_false, if_false, if_true, Bool.false_eq_true]
  simp [hkey_h]

theorem parseViewLine_skip_no_colon (key value : List Char) (d r : Int)
    (hkeyc : key.contains '=' = false)
    (hline_s : pyStrip (key ++ ('=' :: value)) = key ++ ('=' :: value))
    (hvc : (pyStrip value).contains ':' = false) :
    parseViewLine d r (key ++ ('=' :: value)) = none := by
  have hcont : (key ++ ('=' :: value)).contains '=' = true :=
    contains_append_cons_self _ _ _
  have hsplit := pySplitFirst_append key value '=' hkeyc
  simp only [parseViewLine, hline_s, hsplit, hcont, Bool.not_true,
    Bool.false_eq_true, if_false]
  split
  · rfl
  · split
    · rfl
    · split
      · rfl
      · split
        · next h4 =>
            rw [hvc] at h4
            simp at h4
        · rfl

theorem parseViewLine_skip_no_ext (key value : List Char) (d r : Int)
    (hkeyc : key.contains '=' = false)
    (hline_s : pyStrip (key ++ ('=' :: value)) = key ++ ('=' :: value))
    (hnx : containsSub ".xlsx".data (pyStrip value) = false) :
    parseViewLine d r (key ++ ('=' :: value)) = none := by
  have hcont : (key ++ ('=' :: value)).contains '=' = true :=
    contains_append_cons_self _ _ _
  have hsplit := pySplitFirst_append key value '=' hkeyc
  simp only [parseViewLine, hline_s, hsplit, hcont, Bool.not_true,
    Bool.false_eq_true, if_false]
  split
  · rfl
  · split
    · rfl
    · split
      · rfl
      · split
        · next h4 =>
            rw [hnx] at h4
            simp at h4
        · rfl

theorem parseViewLine_skip_upper (key value : List Char) (d r : Int)
    (hkeyc : key.contains '=' = false)
    (hline_s : pyStrip (key ++ ('=' :: value)) = key ++ ('=' :: value))
    (hup : pyIsUpper (pyStrip key) = true)
    (hlen : 3 < (pyStrip key).length) :
    parseViewLine d r (key ++ ('=' :: value)) = none := by
  have hcont : (key ++ ('=' :: value)).contains '=' = true :=
    contains_append_cons_self _ _ _
  have hsplit := pySplitFirst_append key value '=' hkeyc
  simp only [parseViewLine, hline_s, hsplit, hcont, Bool.not_true,
    Bool.false_eq_true, if_false]
  split
  · rfl
  · split
    · rfl
    · split
      · rfl
      · next h3 =>
          rw [hup] at h3
          simp at h3
          omega

theorem parseViewLine_valid_noanchor (key tmpl out : List Char) (d r : Int)
    (hkey_ne : key ≠ []) (hkeyc : key.contains '=' = false)
    (hkey_s : pyStrip key = key) (hkey_h : key.head? ≠ some '#')
    (hres : startsWithReserved key = false)
    (hup : (pyIsUpper key && decide (key.length > 3)) = false)
    (htm_s : pyStrip tmpl = tmpl) (htm_c : tmpl.contains ':' = false)
    (hext : ".xlsx".data.isSuffixOf (pyLower tmpl) = true)
    (hin : containsSub ".xlsx".data (tmpl ++ (':' :: out)) = true)
    (htm_ne : tmpl ≠ [])
    (hout_s : pyStrip out = out) (hout_c : out.contains ':' = false)
    (hout_ne : out ≠ [])
    (hV_s : pyStrip (tmpl ++ (':' :: out)) = tmpl ++ (':' :: out))
    (hline_s : pyStrip (key ++ ('=' :: (tmpl ++ (':' :: out)))) =
      key ++ ('=' :: (tmpl ++ (':' :: out)))) :
    parseViewLine d r (key ++ ('=' :: (tmpl ++ (':' :: out)))) =
      some (key, ⟨key, tmpl, out, d, r⟩) := by
  have hempty : (key ++ ('=' :: (tmpl ++ (':' :: out)))).isEmpty = false := by
    cases key <;> simp
  have hhead := head?_append_cons key (tmpl ++ (':' :: out)) '=' hkey_ne
  have hcont : (key ++ ('=' :: (tmpl ++ (':' :: out)))).contains '=' = true :=
    contains_append_cons_self _ _ _
  have hsplit := pySplitFirst_append key (tmpl ++ (':' :: out)) '=' hkeyc
  have hVempty : (tmpl ++ (':' :: out)).isEmpty = false := by
    cases tmpl <;> simp
  have hVcont : (tmpl ++ (':' :: out)).contains ':' = true :=
    contains_append_cons_self _ _ _
  have hparts : pySplit ':' (tmpl ++ (':' :: out)) = [tmpl, out] := by
    rw [pySplit_append tmpl _ ':' htm_c, pySplit_no_sep out ':' hout_c]
  have htm_e : tmpl.isEmpty = false := by
    cases tmpl with
    | nil => exact absurd rfl htm_ne
    | cons a b => rfl
  have hout_e : out.isEmpty = false := by
    cases out with
    | nil => exact absurd rfl hout_ne
    | cons a b => rfl
  simp only [parseViewLine, hline_s, hempty, hhead, hcont, hsplit, hkey_s, hV_s,
    hres, hup, hVempty, hVcont, hin, hparts, List.getD_cons_zero,
    List.getD_cons_succ, htm_s, hout_s, hext, htm_e, hout_e,
    Bool.false_or, Bool.or_false, Bool.and_self, Bool.true_and, Bool.and_true,
    Bool.not_true, Bool.not_false, if_false, if_true, Bool.false_eq_true]
  simp [hkey_h]

/-- C3, corrected: the loader also skips any key that is entirely
uppercase and longer than 3 characters — including `SALES_REPORT`, the
spec's own example, which therefore yields no entry — and it performs no
path-traversal filtering, accepting a template name such as `../t.xlsx`. -/
theorem claim_C3_counterexample :
    _load_views_config 2 1
      ["SALES_REPORT=sales_template.xlsx:sales_{date}.xlsx:B3".data] = [] ∧
    _load_views_config 2 1 ["rep=../t.xlsx:out".data] =
      [("rep".data, ⟨"rep".data, "../t.xlsx".data, "out".data, 2, 1⟩)] := by
  constructor
  · decide
  · decide

/-- C3 (amended): a configuration line `key=template:pattern[:anchor]`
produces exactly the `ViewEntry` with the parsed segments when the
stripped key is non-reserved, not all-uppercase-longer-than-3, and the
value has a `:`, contains `.xlsx`, and the template segment ends (case
insensitively) in `.xlsx` with a non-empty output pattern; lines whose
value lacks a `:` or the `.xlsx` substring, and lines with an
all-uppercase key longer than 3 characters, produce no entry.  No
path-traversal check is performed.  The example
`sales_report=sales_template.xlsx:sales_{date}.xlsx:B3` (lower-case key)
yields template `sales_template.xlsx`, pattern `sales_{date}.xlsx`,
anchor row 3 column 2. -/
theorem claim_C3 :
    (∀ (key tmpl out anch : List Char) (d r : Int),
      key ≠ [] → key.contains '=' = false → pyStrip key = key →
      key.head? ≠ some '#' → startsWithReserved key = false →
      (pyIsUpper key && decide (key.length > 3)) = false →
      pyStrip tmpl = tmpl → tmpl.contains ':' = false →
      ".xlsx".data.isSuffixOf (pyLower tmpl) = true →
      containsSub ".xlsx".data (tmpl ++ (':' :: (out ++ (':' :: anch)))) = true →
      tmpl ≠ [] → pyStrip out = out → out.contains ':' = false → out ≠ [] →
      pyStrip anch = anch → anch.contains ':' = false →
      pyStrip (tmpl ++ (':' :: (out ++ (':' :: anch)))) =
        tmpl ++ (':' :: (out ++ (':' :: anch))) →
      pyStrip (key ++ ('=' :: (tmpl ++ (':' :: (out ++ (':' :: anch)))))) =
        key ++ ('=' :: (tmpl ++ (':' :: (out ++ (':' :: anch))))) →
      _load_views_config d r
        [key ++ ('=' :: (tmpl ++ (':' :: (out ++ (':' :: anch)))))] =
        [(key, ⟨key, tmpl, out, (_parse_position anch d r).1,
          (_parse_position anch d r).2⟩)])
  ∧ (∀ (key tmpl out : List Char) (d r : Int),
      key ≠ [] → key.contains '=' = false → pyStrip key = key →
      key.head? ≠ some '#' → startsWithReserved key = false →
      (pyIsUpper key && decide (key.length > 3)) = false →
      pyStrip tmpl = tmpl → tmpl.contains ':' = false →
      ".xlsx".data.isSuffixOf (pyLower tmpl) = true →
      containsSub ".xlsx".data (tmpl ++ (':' :: out)) = true →
      tmpl ≠ [] → pyStrip out = out → out.contains ':' = false → out ≠ [] →
      pyStrip (tmpl ++ (':' :: out)) = tmpl ++ (':' :: out) →
      pyStrip (key ++ ('=' :: (tmpl ++ (':' :: out)))) =
        key ++ ('=' :: (tmpl ++ (':' :: out))) →
      _load_views_config d r [key ++ ('=' :: (tmpl ++ (':' :: out)))] =
        [(key, ⟨key, tmpl, out, d, r⟩)])
  ∧ (∀ (key value : List Char) (d r : Int),
      key.contains '=' = false →
      pyStrip (key ++ ('=' :: value)) = key ++ ('=' :: value) →
      (pyStrip value).contains ':' = false →
      _load_views_config d r [key ++ ('=' :: value)] = [])
  ∧ (∀ (key value : List Char) (d r : Int),
      key.contains '=' = false →
      pyStrip (key ++ ('=' :: value)) = key ++ ('=' :: value) →
      containsSub ".xlsx".data (pyStrip value) = false →
      _load_views_config d r [key ++ ('=' :: value)] = [])
  ∧ (∀ (key value : List Char) (d r : Int),
      key.contains '=' = false →
      pyStrip (key ++ ('=' :: value)) = key ++ ('=' :: value) →
      pyIsUpper (pyStrip key) = true → 3 < (pyStrip key).length →
      _load_views_config d r [key ++ ('=' :: value)] = [])
  ∧ _load_views_config 2 1
      ["sales_report=sales_template.xlsx:sales_{date}.xlsx:B3".data] =
      [("sales_report".data,
        ⟨"sales_report".data, "sales_template.xlsx".data,
          "sales_{date}.xlsx".data, 3, 2⟩)] := by
  refine ⟨?_, ?_, ?_, ?_, ?_, ?_⟩
  · intro key tmpl out anch d r h1 h2 h3 h4 h5 h6 h7 h8 h9 h10 h11 h12 h13 h14
      h15 h16 h17 h18
    rw [_load_views_config_single,
      parseViewLine_valid key tmpl out anch d r h1 h2 h3 h4 h5 h6 h7 h8 h9 h10
        h11 h12 h13 h14 h15 h16 h17 h18]
  · intro key tmpl out d r h1 h2 h3 h4 h5 h6 h7 h8 h9 h10 h11 h12 h13 h14 h15 h16
    rw [_load_views_config_single,
      parseViewLine_valid_noanchor key tmpl out d r h1 h2 h3 h4 h5 h6 h7 h8 h9
        h10 h11 h12 h13 h14 h15 h16]
  · intro key value d r h1 h2 h3
    rw [_load_views_config_single, parseViewLine_skip_no_colon key value d r h1 h2 h3]
  · intro key value d r h1 h2 h3
    rw [_load_views_config_single, parseViewLine_skip_no_ext key value d r h1 h2 h3]
  · intro key value d r h1 h2 h3 h4
    rw [_load_views_config_single, parseViewLine_skip_upper key value d r h1 h2 h3 h4]
  · decide

/-- Witness for C3 on concrete configuration lines. -/
theorem claim_C3_witness :
    _load_views_config 7 9 ["report=a.xlsx:out_b:2,5".data] =
      [("report".data,
        ⟨"report".data, "a.xlsx".data, "out_b".data, 2, 5⟩)] ∧
    _load_views_config 2 1 ["plainkey=noseparator".data] = [] := by
  constructor
  · have h := claim_C3.1 "report".data "a.xlsx".data "out_b".data "2,5".data 7 9
      (by decide) (by decide) (by decide) (by decide) (by decide) (by decide)
      (by decide) (by decide) (by decide) (by decide) (by decide) (by decide)
      (by decide) (by decide) (by decide) (by decide) (by decide) (by decide)
    have heq : "report=a.xlsx:out_b:2,5".data =
        "report".data ++ ('=' :: ("a.xlsx".data ++
          (':' :: ("out_b".data ++ (':' :: "2,5".data))))) := by decide
    rw [heq, h]
    decide
  · have h := claim_C3.2.2.1 "plainkey".data "noseparator".data 2 1
      (by decide) (by decide) (by decide)
    have heq : "plainkey=noseparator".data =
        "plainkey".data ++ ('=' :: "noseparator".data) := by decide
    rw [heq, h]

/-! ## Worksheet toolkit lemmas -/

theorem nthD_ge (d : β) (l : List β) (n : Nat) (h : l.length ≤ n) :
    nthD d l n = d := by
  induction l generalizing n with
  | nil => cases n <;> rfl
  | cons x xs ih =>
    match n with
    | 0 => simp at h
    | m + 1 =>
      simp only [List.length_cons] at h
      exact ih m (by omega)

theorem nthD_append_right (d : β) (a b : List β) (n : Nat) :
    nthD d (a ++ b) (a.length + n) = nthD d b n := by
  induction a with
  | nil => simp [nthD]
  | cons x xs ih =>
    simp only [List.cons_append, List.length_cons]
    rw [Nat.add_right_comm]
    exact ih

theorem nthD_append_left (d : β) (a b : List β) (n : Nat) (h : n < a.length) :
    nthD d (a ++ b) n = nthD d a n := by
  induction a generalizing n with
  | nil => simp at h
  | cons x xs ih =>
    match n with
    | 0 => rfl
    | m + 1 =>
      simp only [List.length_cons] at h
      exact ih m (by omega)

theorem nthD_map (d : γ) (d0 : β) (f : β → γ) (l : List β) (n : Nat)
    (h : n < l.length) : nthD d (l.map f) n = f (nthD d0 l n) := by
  induction l generalizing n with
  | nil => simp at h
  | cons x xs ih =>
    match n with
    | 0 => rfl
    | m + 1 =>
      simp only [List.length_cons] at h
      exact ih m (by omega)

theorem nthD_mem (d : β) (l : List β) (n : Nat) (h : n < l.length) :
    nthD d l n ∈ l := by
  induction l generalizing n with
  | nil => simp at h
  | cons x xs ih =>
    match n with
    | 0 => simp [nthD]
    | m + 1 =>
      simp only [List.length_cons] at h
      exact List.mem_cons_of_mem x (ih m (by omega))

theorem nthD_take (d : β) (l : List β) (n m : Nat) (h : n < m) :
    nthD d (l.take m) n = nthD d l n := by
  induction l generalizing n m with
  | nil => simp
  | cons x xs ih =>
    match m, h with
    | m + 1, h =>
      match n with
      | 0 => rfl
      | k + 1 =>
        show nthD d (xs.take m) k = nthD d xs k
        exact ih k m (by omega)

theorem length_setPad (d : β) (l : List β) (n : Nat) (v : β) :
    (setPad d l n v).length = max l.length (n + 1) := by
  induction l generalizing n with
  | nil =>
    induction n with
    | zero => rfl
    | succ m ihm =>
      simp only [setPad, List.length_cons, ihm, List.length_nil]
      omega
  | cons x xs ih =>
    match n with
    | 0 => simp [setPad]
    | m + 1 =>
      simp only [setPad, List.length_cons, ih m]
      omega

theorem setPad_append (d : β) (l : List β) (n : Nat) (v : β)
    (h : l.length ≤ n) :
    setPad d l n v = l ++ List.replicate (n - l.length) d ++ [v] := by
  induction l generalizing n with
  | nil =>
    induction n with
    | zero => rfl
    | succ m ihm =>
      simp only [setPad, List.nil_append] at ihm ⊢
      rw [ihm (by simp)]
      simp [List.replicate_succ]
  | cons x xs ih =>
    match n with
    | 0 => simp at h
    | m + 1 =>
      simp only [List.length_cons] at h
      have hc : m + 1 - (x :: xs).length = m - xs.length := by
        simp only [List.length_cons]
        omega
      simp only [setPad, ih m (by omega), List.cons_append, hc]

theorem nthD_setPad_self (d d0 : β) (l : List β) (n : Nat) (v : β) :
    nthD d0 (setPad d l n v) n = v := by
  induction l generalizing n with
  | nil =>
    induction n with
    | zero => rfl
    | succ m ihm => exact ihm
  | cons x xs ih =>
    match n with
    | 0 => rfl
    | m + 1 => exact ih m

theorem nthD_setPad_ne (d : β) (l : List β) (n m : Nat) (v : β) (h : m ≠ n) :
    nthD d (setPad d l n v) m = nthD d l m := by
  induction l generalizing n m with
  | nil =>
    induction n generalizing m with
    | zero =>
      match m with
      | 0 => exact absurd rfl h
      | k + 1 => cases k <;> rfl
    | succ p ihp =>
      match m with
      | 0 => rfl
      | k + 1 =>
        show nthD d (setPad d [] p v) k = nthD d [] k
        have := ihp k (by omega)
        rw [this]
  | cons x xs ih =>
    match n with
    | 0 =>
      match m with
      | 0 => exact absurd rfl h
      | k + 1 => rfl
    | p + 1 =>
      match m with
      | 0 => rfl
      | k + 1 => exact ih p k (by omega)

theorem setPad_setPad_self (d : β) (l : List β) (n : Nat) (x y : β) :
    setPad d (setPad d l n x) n y = setPad d l n y := by
  induction l generalizing n with
  | nil =>
    induction n with
    | zero => rfl
    | succ m ihm => simp only [setPad, ihm]
  | cons a as ih =>
    match n with
    | 0 => rfl
    | m + 1 => simp only [setPad, ih m]

/-- The row-level effect of the inner write loop: place `vals` at 0-based
cell indices `c-1`, `c`, …, padding with blanks. -/
def write_cells : List (Option α) → Nat → List (Option α) → List (Option α)
  | row, _, [] => row
  | row, c, v :: vs => write_cells (setPad none row (c - 1) v) (c + 1) vs

theorem write_cells_closed (vs : List (Option α)) :
    ∀ (v : Option α) (row : List (Option α)) (c : Nat), 1 ≤ c →
      row.length ≤ c - 1 →
      write_cells row c (v :: vs) =
        row ++ List.replicate (c - 1 - row.length) none ++ (v :: vs) := by
  induction vs with
  | nil =>
    intro v row c hc hrow
    show setPad none row (c - 1) v = _
    rw [setPad_append none row (c - 1) v hrow]
  | cons w ws ih =>
    intro v row c hc hrow
    show write_cells (setPad none row (c - 1) v) (c + 1) (w :: ws) = _
    rw [ih w (setPad none row (c - 1) v) (c + 1) (by omega)
      (by rw [length_setPad]; omega)]
    rw [length_setPad]
    rw [setPad_append none row (c - 1) v hrow]
    have h1 : c + 1 - 1 - max row.length (c - 1 + 1) = 0 := by omega
    rw [h1]
    simp

theorem write_row_eq (vals : List (Option α)) :
    ∀ (ws : Worksheet α) (r c : Nat), 1 ≤ r → 1 ≤ c → vals ≠ [] →
      write_row ws r c vals =
        some (setPad [] ws (r - 1)
          (write_cells (nthD [] ws (r - 1)) c vals)) := by
  induction vals with
  | nil =>
    intro ws r c _ _ h
    exact absurd rfl h
  | cons v vs ih =>
    intro ws r c hr hc _
    rw [write_row, if_neg (by simp; omega)]
    by_cases hvs : vs = []
    · subst hvs
      rfl
    · rw [ih (setCell ws r c v) r (c + 1) hr (by omega) hvs]
      show some (setPad [] (setCell ws r c v) (r - 1)
        (write_cells (nthD [] (setCell ws r c v) (r - 1)) (c + 1) vs)) = _
      unfold setCell
      rw [nthD_setPad_self, setPad_setPad_self]
      rfl

theorem write_cells_nil_base (row : List (Option α)) (c : Nat) (hc : 1 ≤ c)
    (hrow : row ≠ []) :
    write_cells [] c row = List.replicate (c - 1) none ++ row := by
  match row, hrow with
  | v :: vs, _ =>
    rw [write_cells_closed vs v [] c hc (by simp)]
    simp

theorem write_rows_closed (rest : List (List (Option α))) :
    ∀ (row : List (Option α)) (ws : Worksheet α) (r c : Nat),
      1 ≤ r → 1 ≤ c → ws.length ≤ r - 1 →
      (∀ x ∈ row :: rest, x ≠ []) →
      write_rows ws r c (row :: rest) =
        some (ws ++ List.replicate (r - 1 - ws.length) [] ++
          (row :: rest).map
            (fun vals => List.replicate (c - 1) none ++ vals)) := by
  induction rest with
  | nil =>
    intro row ws r c hr hc hws hne
    have hrow : row ≠ [] := hne row (by simp)
    have hb : nthD [] ws (r - 1) = [] := nthD_ge [] ws (r - 1) hws
    simp only [write_rows]
    rw [write_row_eq row ws r c hr hc hrow, hb,
      write_cells_nil_base row c hc hrow]
    show some (setPad [] ws (r - 1) (List.replicate (c - 1) none ++ row)) = _
    rw [setPad_append [] ws (r - 1) _ hws]
    simp

  | cons row2 rest2 ih =>
    intro row ws r c hr hc hws hne
    have hrow : row ≠ [] := hne row (by simp)
    have hb : nthD [] ws (r - 1) = [] := nthD_ge [] ws (r - 1) hws
    simp only [write_rows]
    rw [write_row_eq row ws r c hr hc hrow, hb,
      write_cells_nil_base row c hc hrow]
    show write_rows
      (setPad [] ws (r - 1) (List.replicate (c - 1) none ++ row))
      (r + 1) c (row2 :: rest2) = _
    rw [ih row2 _ (r + 1) c (by omega) hc
      (by rw [length_setPad]; omega)
      (fun x hx => hne x (List.mem_cons_of_mem _ hx))]
    rw [length_setPad]
    rw [setPad_append [] ws (r - 1) _ hws]
    have h1 : r + 1 - 1 - max ws.length (r - 1 + 1) = 0 := by omega
    rw [h1]
    simp

theorem write_row_isSome (ws : Worksheet α) (r c : Nat)
    (vals : List (Option α)) (hr : 1 ≤ r) (hc : 1 ≤ c) :
    ∃ w, write_row ws r c vals = some w := by
  induction vals generalizing ws c with
  | nil => exact ⟨ws, rfl⟩
  | cons v vs ih =>
    rw [write_row, if_neg (by simp; omega)]
    exact ih (setCell ws r c v) (c + 1) (by omega)

theorem write_rows_isSome (rows : List (List (Option α))) :
    ∀ (ws : Worksheet α) (r c : Nat), 1 ≤ r → 1 ≤ c →
      ∃ w, write_rows ws r c rows = some w := by
  induction rows with
  | nil =>
    intro ws r c _ _
    exact ⟨ws, rfl⟩
  | cons row rest ih =>
    intro ws r c hr hc
    obtain ⟨w1, hw1⟩ := write_row_isSome ws r c row hr hc
    rw [write_rows, hw1]
    exact ih w1 (r + 1) c (by omega) hc

theorem readCellsRow_spec (m : Nat) :
    ∀ (c : Nat) (vals row : List (Option α)), 1 ≤ c → vals.length = m →
      (∀ j, j < m → nthD none row (c - 1 + j) = nthD none vals j) →
      readCellsRow row c m = vals := by
  induction m with
  | zero =>
    intro c vals row _ hlen _
    match vals, hlen with
    | [], _ => rfl
  | succ m ih =>
    intro c vals row hc hlen hpt
    match vals, hlen with
    | v :: vs, hlen =>
      show nthD none row (c - 1) :: readCellsRow row (c + 1) m = v :: vs
      congr 1
      · have := hpt 0 (by omega)
        simpa using this
      · refine ih (c + 1) vs row (by omega) (by simpa using hlen) ?_
        intro j hj
        have := hpt (j + 1) (by omega)
        have harith : c - 1 + (j + 1) = c + 1 - 1 + j := by omega
        rw [harith] at this
        simpa using this

theorem readRegion_spec (n : Nat) :
    ∀ (r c m : Nat) (rows : List (List (Option α))) (ws : Worksheet α),
      1 ≤ c → rows.length = n →
      (∀ i, i < n → rowAt ws (r + i) =
        List.replicate (c - 1) none ++ nthD [] rows i) →
      (∀ i, i < n → (nthD [] rows i).length = m) →
      readRegion ws r c n m = rows := by
  induction n with
  | zero =>
    intro r c m rows ws _ hlen _ _
    match rows, hlen with
    | [], _ => rfl
  | succ n ih =>
    intro r c m rows ws hc hlen hrow hm
    match rows, hlen with
    | row :: rest, hlen =>
      show readCellsRow (rowAt ws r) c m :: readRegion ws (r + 1) c n m =
        row :: rest
      congr 1
      · have h0 := hrow 0 (by omega)
        simp only [Nat.add_zero] at h0
        have hm0 := hm 0 (by omega)
        simp only [nthD] at h0 hm0
        refine readCellsRow_spec m c row (rowAt ws r) hc hm0 ?_
        intro j hj
        rw [h0]
        have hrep : (List.replicate (c - 1) (none : Option α)).length = c - 1 :=
          List.length_replicate (c - 1) none
        have happ := nthD_append_right (none : Option α)
          (List.replicate (c - 1) none) row j
        rw [hrep] at happ
        exact happ
      · refine ih (r + 1) c m rest ws hc (by simpa using hlen) ?_ ?_
        · intro i hi
          have := hrow (i + 1) (by omega)
          have harith : r + (i + 1) = r + 1 + i := by omega
          rw [harith] at this
          simpa [nthD] using this
        · intro i hi
          have := hm (i + 1) (by omega)
          simpa [nthD] using this

/-! ## Engine step lemmas -/

theorem clear_existing_data_eq (env : PyEnv) (ex : ExcelExporter α)
    (ws : Worksheet α) (hws : ex.worksheet = some ws)
    (hsr : 1 ≤ ex.config.start_row) (hdel : env.deleteRaises = false) :
    clear_existing_data env ex none none =
      ({ ex with worksheet := some (ws.take (ex.config.start_row - 1)) },
        true) := by
  unfold clear_existing_data
  rw [hws]
  simp only [pyOrNat]
  show (if ex.config.start_row ≤ max_row ws then _ else _) = _
  by_cases hle : ex.config.start_row ≤ max_row ws
  · rw [if_pos hle, if_neg (by rw [hdel]; exact Bool.false_ne_true)]
    have hdr : delete_rows ws ex.config.start_row
        (max_row ws - ex.config.start_row + 1) =
        ws.take (ex.config.start_row - 1) := by
      unfold delete_rows
      have h1 : ex.config.start_row - 1 +
          (max_row ws - ex.config.start_row + 1) = max_row ws := by omega
      rw [h1]
      have h2 : ws.drop (max_row ws) = [] := by
        rw [List.drop_eq_nil_iff]
        unfold max_row
        omega
      rw [h2, List.append_nil]
    rw [hdr]
  · rw [if_neg hle]
    have hlen : ws.length ≤ ex.config.start_row - 1 := by
      unfold max_row at hle
      omega
    rw [List.take_of_length_le hlen, ← hws]

theorem load_template_eq (env : PyEnv) (fs : Fs α) (ex : ExcelExporter α)
    (tpl : Worksheet α) (htpl : fs ex.config.template_path = some tpl)
    (hload : env.loadRaises = false) :
    load_template env fs ex = ({ ex with worksheet := some tpl }, true) := by
  unfold load_template
  rw [htpl, hload]
  simp

theorem export_data_eq (ex : ExcelExporter α) (ws : Worksheet α)
    (df : DataFrame α) (hws : ex.worksheet = some ws)
    (hemp : df.empty = false) (W : Worksheet α)
    (hw : write_rows ws ex.config.start_row ex.config.start_col
      (dataframe_to_rows df false) = some W) :
    export_data ex df false = ({ ex with worksheet := some W }, true) := by
  unfold export_data
  rw [hws]
  simp only [hemp, Bool.false_eq_true, if_false]
  rw [hw]

theorem save_eq (env : PyEnv) (fs : Fs α) (ex : ExcelExporter α)
    (ws : Worksheet α) (hws : ex.worksheet = some ws)
    (hsave : env.saveRaises = false) :
    save env fs ex = (updateFs fs ex.config.output_path ws, true) := by
  unfold save
  rw [hws, hsave]
  simp [auto_adjust_columns_width]

theorem export_pipeline_run (env : PyEnv) (fs : Fs α)
    (cfg : ExcelExportConfig) (tpl : Worksheet α) (df : DataFrame α)
    (htpl : fs cfg.template_path = some tpl)
    (hload : env.loadRaises = false) (hdel : env.deleteRaises = false)
    (hsave : env.saveRaises = false)
    (hsr : 1 ≤ cfg.start_row) (hsc : 1 ≤ cfg.start_col)
    (hrows : df.rows ≠ []) (hcols : df.columns ≠ [])
    (hne : ∀ x ∈ df.rows, x ≠ []) :
    export_dataframe_to_template env fs ⟨cfg, none⟩ df true false =
      (updateFs fs cfg.output_path
        (tpl.take (cfg.start_row - 1) ++
          List.replicate
            (cfg.start_row - 1 - (tpl.take (cfg.start_row - 1)).length) [] ++
          df.rows.map
            (fun vals => List.replicate (cfg.start_col - 1) none ++ vals)),
        ⟨cfg, some
          (tpl.take (cfg.start_row - 1) ++
            List.replicate
              (cfg.start_row - 1 - (tpl.take (cfg.start_row - 1)).length) [] ++
            df.rows.map
              (fun vals => List.replicate (cfg.start_col - 1) none ++ vals))⟩,
        ⟨true, "Данные успешно экспортированы", some cfg.output_path,
          some df.rows.length⟩) := by
  obtain ⟨cols, rows⟩ := df
  match rows, hrows with
  | row :: rest, _ =>
  match cols, hcols with
  | c0 :: cs, _ =>
    have hload_eq := load_template_eq env fs ⟨cfg, none⟩ tpl htpl hload
    have hclear := clear_existing_data_eq env ⟨cfg, some tpl⟩ tpl rfl hsr hdel
    have hwlen : (tpl.take (cfg.start_row - 1)).length ≤ cfg.start_row - 1 := by
      rw [List.length_take]
      omega
    have hwrite := write_rows_closed rest row (tpl.take (cfg.start_row - 1))
      cfg.start_row cfg.start_col hsr hsc hwlen hne
    have hexp := export_data_eq (α := α)
      ⟨cfg, some (tpl.take (cfg.start_row - 1))⟩
      (tpl.take (cfg.start_row - 1)) ⟨c0 :: cs, row :: rest⟩ rfl rfl
      (tpl.take (cfg.start_row - 1) ++
        List.replicate
          (cfg.start_row - 1 - (tpl.take (cfg.start_row - 1)).length) [] ++
        (row :: rest).map
          (fun vals => List.replicate (cfg.start_col - 1) none ++ vals))
      hwrite
    have hsave_eq := save_eq env fs
      (⟨cfg, some (tpl.take (cfg.start_row - 1) ++
        List.replicate
          (cfg.start_row - 1 - (tpl.take (cfg.start_row - 1)).length) [] ++
        (row :: rest).map
          (fun vals => List.replicate (cfg.start_col - 1) none ++ vals))⟩ :
        ExcelExporter α)
      (tpl.take (cfg.start_row - 1) ++
        List.replicate
          (cfg.start_row - 1 - (tpl.take (cfg.start_row - 1)).length) [] ++
        (row :: rest).map
          (fun vals => List.replicate (cfg.start_col - 1) none ++ vals))
      rfl hsave
    simp only [export_dataframe_to_template, hload_eq, hclear, hexp, hsave_eq,
      Bool.not_true, Bool.false_eq_true, if_false, if_true, ite_true, ite_false]

/-- C2: `clear_existing_data` deletes rows `start_row` through the sheet's
last row inclusive (the result is the first `start_row - 1` rows, so rows
below the range shift out rather than being blanked), succeeds and leaves
the sheet untouched when the last row is below `start_row`, and never
disturbs rows strictly above `start_row`; consequently exporting a 2-row
table into a template holding a title row and 5 stale rows below an
anchor at row 2 leaves exactly the title row followed by the 2 data
rows. -/
theorem claim_C2 :
    (∀ (env : PyEnv) (ex : ExcelExporter α) (ws : Worksheet α),
      ex.worksheet = some ws → 1 ≤ ex.config.start_row →
      env.deleteRaises = false →
      (clear_existing_data env ex none none).2 = true ∧
      ((clear_existing_data env ex none none).1).worksheet =
        some (ws.take (ex.config.start_row - 1)) ∧
      (∀ k, 1 ≤ k → k < ex.config.start_row →
        rowAt (ws.take (ex.config.start_row - 1)) k = rowAt ws k) ∧
      (∀ k, ex.config.start_row ≤ k →
        rowAt (ws.take (ex.config.start_row - 1)) k = []) ∧
      (max_row ws < ex.config.start_row →
        ws.take (ex.config.start_row - 1) = ws))
  ∧ (∀ (env : PyEnv) (fs : Fs α) (cfg : ExcelExportConfig)
      (title s1 s2 s3 s4 s5 d1 d2 : List (Option α)) (cols : List α),
      fs cfg.template_path = some [title, s1, s2, s3, s4, s5] →
      env.loadRaises = false → env.deleteRaises = false →
      env.saveRaises = false →
      cfg.start_row = 2 → cfg.start_col = 1 →
      d1 ≠ [] → d2 ≠ [] → cols ≠ [] →
      (export_dataframe_to_template env fs ⟨cfg, none⟩ ⟨cols, [d1, d2]⟩
          true false).1 cfg.output_path = some [title, d1, d2] ∧
      (export_dataframe_to_template env fs ⟨cfg, none⟩ ⟨cols, [d1, d2]⟩
          true false).2.2.success = true) := by
  constructor
  · intro env ex ws hws hsr hdel
    have hc := clear_existing_data_eq env ex ws hws hsr hdel
    refine ⟨by rw [hc], by rw [hc], ?_, ?_, ?_⟩
    · intro k hk1 hk2
      unfold rowAt
      exact nthD_take [] ws (k - 1) (ex.config.start_row - 1) (by omega)
    · intro k hk
      unfold rowAt
      refine nthD_ge [] _ (k - 1) ?_
      rw [List.length_take]
      omega
    · intro hmr
      refine List.take_of_length_le ?_
      unfold max_row at hmr
      omega
  · intro env fs cfg title s1 s2 s3 s4 s5 d1 d2 cols htpl hload hdel hsave
      hsr2 hsc1 hd1 hd2 hcols
    have hrun := export_pipeline_run env fs cfg [title, s1, s2, s3, s4, s5]
      ⟨cols, [d1, d2]⟩ htpl hload hdel hsave (by omega) (by omega)
      (by simp) hcols
      (by
        intro x hx
        rcases List.mem_cons.mp hx with hx | hx
        · subst hx; exact hd1
        · rcases List.mem_cons.mp hx with hx | hx
          · subst hx; exact hd2
          · simp at hx)
    rw [hrun]
    simp only [hsr2, hsc1]
    constructor
    · show updateFs fs cfg.output_path _ cfg.output_path = _
      unfold updateFs
      simp [List.take]
    · trivial

/-- Witness for C2: a concrete clear call succeeds and a concrete 2-row
export into a 5-stale-row template leaves title + 2 rows. -/
theorem claim_C2_witness :
    (clear_existing_data ⟨false, false, false⟩
      (⟨⟨"t.xlsx", "o.xlsx", "Data", 2, 1, true, true⟩,
        some [[some (1 : Nat)], [some 2], [some 3]]⟩ : ExcelExporter Nat)
      none none).2 = true ∧
    (export_dataframe_to_template ⟨false, false, false⟩
      (fun p => if p = "t.xlsx" then
        some [[some (9 : Nat)], [some 1], [some 2], [some 3], [some 4],
          [some 5]]
        else none)
      ⟨⟨"t.xlsx", "o.xlsx", "Data", 2, 1, true, true⟩, none⟩
      ⟨[7], [[some 10], [some 20]]⟩ true false).1 "o.xlsx" =
      some [[some 9], [some 10], [some 20]] :=
  ⟨(claim_C2.1 ⟨false, false, false⟩ _ _ rfl (by decide) rfl).1,
   (claim_C2.2 ⟨false, false, false⟩ _ ⟨"t.xlsx", "o.xlsx", "Data", 2, 1,
      true, true⟩ [some 9] [some 1] [some 2] [some 3] [some 4] [some 5]
      [some 10] [some 20] [7] rfl rfl rfl rfl rfl rfl (by decide) (by decide)
      (by decide)).1⟩

/-- C1, corrected: for N = 0 the claimed round trip cannot hold as stated —
the export of an empty table fails before saving, so no output file is
written and there is no data region to read back. -/
theorem claim_C1_counterexample :
    (export_dataframe_to_template ⟨false, false, false⟩
      (fun p => if p = "t.xlsx" then some [[some (1 : Nat)]] else none)
      ⟨⟨"t.xlsx", "out.xlsx", "Data", 2, 1, true, true⟩, none⟩
      ⟨[5], []⟩ true false).2.2.success = false ∧
    (export_dataframe_to_template ⟨false, false, false⟩
      (fun p => if p = "t.xlsx" then some [[some (1 : Nat)]] else none)
      ⟨⟨"t.xlsx", "out.xlsx", "Data", 2, 1, true, true⟩, none⟩
      ⟨[5], []⟩ true false).1 "out.xlsx" = none := by
  constructor
  · rfl
  · rfl

/-- C1 (amended): for every table with N ≥ 1 rows and M ≥ 1 columns,
the full export succeeds and the output file's `N × M` data region read
from the anchor equals the table's rows in original row and column order,
with no rows beyond the region; for N = 0 no output file is written. -/
theorem claim_C1 (env : PyEnv) (fs : Fs α) (cfg : ExcelExportConfig)
    (tpl : Worksheet α) (df : DataFrame α) (M : Nat)
    (htpl : fs cfg.template_path = some tpl)
    (hload : env.loadRaises = false) (hdel : env.deleteRaises = false)
    (hsave : env.saveRaises = false)
    (hsr : 1 ≤ cfg.start_row) (hsc : 1 ≤ cfg.start_col)
    (hrows : df.rows ≠ []) (hcols : df.columns ≠ [])
    (hM : 1 ≤ M) (hlen : ∀ row ∈ df.rows, row.length = M) :
    (export_dataframe_to_template env fs ⟨cfg, none⟩ df true false).2.2.success
      = true ∧
    (export_dataframe_to_template env fs ⟨cfg, none⟩ df
      true false).2.2.records_count = some df.rows.length ∧
    ∃ W : Worksheet α,
      (export_dataframe_to_template env fs ⟨cfg, none⟩ df true false).1
        cfg.output_path = some W ∧
      readRegion W cfg.start_row cfg.start_col df.rows.length M = df.rows ∧
      (∀ i c', readCell W (cfg.start_row + df.rows.length + i) c' = none) := by
  have hne : ∀ x ∈ df.rows, x ≠ [] := by
    intro x hx h0
    have := hlen x hx
    rw [h0] at this
    simp at this
    omega
  have hrun := export_pipeline_run env fs cfg tpl df htpl hload hdel hsave
    hsr hsc hrows hcols hne
  rw [hrun]
  refine ⟨rfl, rfl, ?_⟩
  refine ⟨tpl.take (cfg.start_row - 1) ++
      List.replicate
        (cfg.start_row - 1 - (tpl.take (cfg.start_row - 1)).length) [] ++
      df.rows.map (fun vals => List.replicate (cfg.start_col - 1) none ++ vals),
    ?_, ?_, ?_⟩
  · simp [updateFs]
  · -- data region reads back exactly
    have hprelen : (tpl.take (cfg.start_row - 1) ++
        List.replicate
          (cfg.start_row - 1 - (tpl.take (cfg.start_row - 1)).length) []).length
        = cfg.start_row - 1 := by
      rw [List.length_append, List.length_replicate, List.length_take]
      omega
    refine readRegion_spec df.rows.length cfg.start_row cfg.start_col M
      df.rows _ hsc rfl ?_ ?_
    · intro i hi
      unfold rowAt
      have harith : cfg.start_row + i - 1 =
          (tpl.take (cfg.start_row - 1) ++
            List.replicate
              (cfg.start_row - 1 - (tpl.take (cfg.start_row - 1)).length)
              []).length + i := by
        rw [hprelen]
        omega
      rw [harith]
      rw [nthD_append_right]
      rw [nthD_map [] [] _ df.rows i hi]
    · intro i hi
      exact hlen _ (nthD_mem [] df.rows i hi)
  · -- no rows beyond the data region
    intro i c'
    unfold readCell
    have hWlen : (tpl.take (cfg.start_row - 1) ++
        List.replicate
          (cfg.start_row - 1 - (tpl.take (cfg.start_row - 1)).length) [] ++
        df.rows.map
          (fun vals => List.replicate (cfg.start_col - 1) none ++ vals)).length
        = cfg.start_row - 1 + df.rows.length := by
      rw [List.length_append, List.length_append, List.length_replicate,
        List.length_take, List.length_map]
      omega
    have hrow0 : nthD [] (tpl.take (cfg.start_row - 1) ++
        List.replicate
          (cfg.start_row - 1 - (tpl.take (cfg.start_row - 1)).length) [] ++
        df.rows.map
          (fun vals => List.replicate (cfg.start_col - 1) none ++ vals))
        (cfg.start_row + df.rows.length + i - 1) = [] := by
      refine nthD_ge [] _ _ ?_
      rw [hWlen]
      omega
    rw [hrow0]
    rfl

/-- Witness for C1: a 1×1 table round-trips through a concrete template. -/
theorem claim_C1_witness :
    (export_dataframe_to_template ⟨false, false, false⟩
      (fun p => if p = "t.xlsx" then some [[some (1 : Nat)]] else none)
      ⟨⟨"t.xlsx", "out.xlsx", "Data", 2, 1, true, true⟩, none⟩
      ⟨[5], [[some 7]]⟩ true false).2.2.success = true ∧
    (export_dataframe_to_template ⟨false, false, false⟩
      (fun p => if p = "t.xlsx" then some [[some (1 : Nat)]] else none)
      ⟨⟨"t.xlsx", "out.xlsx", "Data", 2, 1, true, true⟩, none⟩
      ⟨[5], [[some 7]]⟩ true false).2.2.records_count = some 1 ∧
    ∃ W : Worksheet Nat,
      (export_dataframe_to_template ⟨false, false, false⟩
        (fun p => if p = "t.xlsx" then some [[some (1 : Nat)]] else none)
        ⟨⟨"t.xlsx", "out.xlsx", "Data", 2, 1, true, true⟩, none⟩
        ⟨[5], [[some 7]]⟩ true false).1 "out.xlsx" = some W ∧
      readRegion W 2 1 1 1 = [[some 7]] ∧
      (∀ i c', readCell W (2 + 1 + i) c' = none) :=
  claim_C1 ⟨false, false, false⟩
    (fun p => if p = "t.xlsx" then some [[some (1 : Nat)]] else none)
    ⟨"t.xlsx", "out.xlsx", "Data", 2, 1, true, true⟩ [[some 1]]
    ⟨[5], [[some 7]]⟩ 1 rfl rfl rfl rfl (by decide) (by decide) (by decide)
    (by decide) (by decide) (by decide)

/-! ## Pipeline shape lemmas (claims C5, C6, C10) -/

theorem clear_state (env : PyEnv) (ex : ExcelExporter α) (ws : Worksheet α)
    (hws : ex.worksheet = some ws) :
    ∃ ws2, (clear_existing_data env ex none none).1 =
      { ex with worksheet := some ws2 } := by
  obtain ⟨cfg0, w0⟩ := ex
  simp only at hws
  subst hws
  unfold clear_existing_data
  simp only [pyOrNat]
  split
  · split
    · exact ⟨ws, rfl⟩
    · exact ⟨_, rfl⟩
  · exact ⟨ws, rfl⟩

theorem pipeline_empty (env : PyEnv) (fs : Fs α) (cfg : ExcelExportConfig)
    (tpl : Worksheet α) (df : DataFrame α) (ce ih : Bool)
    (htpl : fs cfg.template_path = some tpl)
    (hload : env.loadRaises = false) (hemp : df.empty = true) :
    (∀ p, (export_dataframe_to_template env fs ⟨cfg, none⟩ df ce ih).1 p
      = fs p) ∧
    (export_dataframe_to_template env fs ⟨cfg, none⟩ df ce ih).2.2 =
      ⟨false, "Ошибка экспорта данных", none, none⟩ := by
  have hle := load_template_eq env fs ⟨cfg, none⟩ tpl htpl hload
  have hex2 : ∃ ws2,
      (if ce then
        (clear_existing_data env (⟨cfg, some tpl⟩ : ExcelExporter α)
          none none).1
      else (⟨cfg, some tpl⟩ : ExcelExporter α)).worksheet = some ws2 := by
    cases ce with
    | false => exact ⟨tpl, rfl⟩
    | true =>
      obtain ⟨ws2, hws2⟩ := clear_state env (⟨cfg, some tpl⟩ : ExcelExporter α)
        tpl rfl
      exact ⟨ws2, by rw [if_pos rfl, hws2]⟩
  obtain ⟨ws2, hws2⟩ := hex2
  have hexp : export_data
      (if ce then
        (clear_existing_data env (⟨cfg, some tpl⟩ : ExcelExporter α)
          none none).1
      else (⟨cfg, some tpl⟩ : ExcelExporter α)) df ih =
      ((if ce then
        (clear_existing_data env (⟨cfg, some tpl⟩ : ExcelExporter α)
          none none).1
      else (⟨cfg, some tpl⟩ : ExcelExporter α)), false) := by
    unfold export_data
    rw [hws2]
    simp [hemp]
  constructor
  · intro p
    simp only [export_dataframe_to_template, hle, hexp, Bool.not_true,
      Bool.false_eq_true, if_false, if_true, ite_true, ite_false]
    simp
  · simp only [export_dataframe_to_template, hle, hexp, Bool.not_true,
      Bool.false_eq_true, if_false, if_true, ite_true, ite_false]
    simp

theorem pipeline_to_save (env : PyEnv) (fs : Fs α) (cfg : ExcelExportConfig)
    (tpl : Worksheet α) (df : DataFrame α) (ce ih : Bool)
    (htpl : fs cfg.template_path = some tpl)
    (hload : env.loadRaises = false) (hemp : df.empty = false)
    (hsr : 1 ≤ cfg.start_row) (hsc : 1 ≤ cfg.start_col) :
    ∃ W : Worksheet α,
      export_dataframe_to_template env fs ⟨cfg, none⟩ df ce ih =
        (if env.saveRaises = true then
          (fs, ⟨cfg, some W⟩,
            ⟨false, "Ошибка сохранения файла", none, none⟩)
        else
          (updateFs fs cfg.output_path W, ⟨cfg, some W⟩,
            ⟨true, "Данные успешно экспортированы", some cfg.output_path,
              some df.rows.length⟩)) := by
  have hle := load_template_eq env fs ⟨cfg, none⟩ tpl htpl hload
  have hex2 : ∃ ws2,
      (if ce then
        (clear_existing_data env (⟨cfg, some tpl⟩ : ExcelExporter α)
          none none).1
      else (⟨cfg, some tpl⟩ : ExcelExporter α)) =
        (⟨cfg, some ws2⟩ : ExcelExporter α) := by
    cases ce with
    | false => exact ⟨tpl, rfl⟩
    | true =>
      obtain ⟨ws2, hws2⟩ := clear_state env (⟨cfg, some tpl⟩ : ExcelExporter α)
        tpl rfl
      exact ⟨ws2, by rw [if_pos rfl, hws2]⟩
  obtain ⟨ws2, hws2⟩ := hex2
  obtain ⟨W, hW⟩ := write_rows_isSome (dataframe_to_rows df ih) ws2
    cfg.start_row cfg.start_col hsr hsc
  have hexp : export_data
      (if ce then
        (clear_existing_data env (⟨cfg, some tpl⟩ : ExcelExporter α)
          none none).1
      else (⟨cfg, some tpl⟩ : ExcelExporter α)) df ih =
      ((⟨cfg, some W⟩ : ExcelExporter α), true) := by
    rw [hws2]
    unfold export_data
    simp only [hemp, Bool.false_eq_true, if_false]
    rw [hW]
  refine ⟨W, ?_⟩
  by_cases hsv : env.saveRaises = true
  · rw [if_pos hsv]
    have hsq : save env fs (⟨cfg, some W⟩ : ExcelExporter α) = (fs, false) := by
      unfold save
      rw [hsv]
      simp
    simp only [export_dataframe_to_template, hle, hexp, hsq, Bool.not_true,
      Bool.false_eq_true, if_false, if_true, ite_true, ite_false]
    simp
  · rw [if_neg hsv]
    have hsv' : env.saveRaises = false := by
      cases h : env.saveRaises
      · rfl
      · exact absurd h hsv
    have hsq := save_eq env fs (⟨cfg, some W⟩ : ExcelExporter α) W rfl hsv'
    simp only [export_dataframe_to_template, hle, hexp, hsq, Bool.not_true,
      Bool.false_eq_true, if_false, if_true, ite_true, ite_false]

theorem pipeline_load_fail (env : PyEnv) (fs : Fs α) (cfg : ExcelExportConfig)
    (df : DataFrame α) (ce ih : Bool)
    (h : fs cfg.template_path = none ∨ env.loadRaises = true) :
    (∀ p, (export_dataframe_to_template env fs ⟨cfg, none⟩ df ce ih).1 p
      = fs p) ∧
    (export_dataframe_to_template env fs ⟨cfg, none⟩ df ce ih).2.2 =
      ⟨false, "Ошибка загрузки шаблона", none, none⟩ := by
  have hlf : (load_template env fs (⟨cfg, none⟩ : ExcelExporter α)).2 = false := by
    unfold load_template
    cases hfs : fs cfg.template_path with
    | none => rfl
    | some tpl =>
      rcases h with h | h
      · rw [hfs] at h
        cases h
      · rw [h]
        rfl
  constructor
  · intro p
    simp only [export_dataframe_to_template, hlf, Bool.not_false, if_true]
  · simp only [export_dataframe_to_template, hlf, Bool.not_false, if_true]

/-- C5, corrected: the pipeline discards the return value of
`clear_existing_data`, so a failing clear step (here a raising
`delete_rows`) does not short-circuit — the export still reports
success. -/
theorem claim_C5_counterexample :
    (clear_existing_data ⟨false, true, false⟩
      (⟨⟨"t.xlsx", "out.xlsx", "Data", 2, 1, true, true⟩,
        some [[some (1 : Nat)], [some 2]]⟩ : ExcelExporter Nat)
      none none).2 = false ∧
    (export_dataframe_to_template ⟨false, true, false⟩
      (fun p => if p = "t.xlsx" then some [[some (1 : Nat)], [some 2]]
        else none)
      ⟨⟨"t.xlsx", "out.xlsx", "Data", 2, 1, true, true⟩, none⟩
      ⟨[5], [[some 7]]⟩ true false).2.2.success = true := by
  constructor
  · rfl
  · rfl

/-- C5 (amended): the pipeline runs load, clear, write, adjust-and-save
in order; a failing load, write or save short-circuits with its
stage-specific message and leaves the file system untouched; reaching
save success yields success with the output path and the table's row
count; but the clear step's result is discarded, so a failing clear does
not short-circuit and the export still succeeds. -/
theorem claim_C5 (env : PyEnv) (fs : Fs α) (cfg : ExcelExportConfig)
    (df : DataFrame α) (ce ih : Bool) :
    ((fs cfg.template_path = none ∨ env.loadRaises = true) →
      (export_dataframe_to_template env fs ⟨cfg, none⟩ df ce ih).2.2 =
        ⟨false, "Ошибка загрузки шаблона", none, none⟩ ∧
      (∀ p, (export_dataframe_to_template env fs ⟨cfg, none⟩ df ce ih).1 p
        = fs p))
  ∧ (∀ tpl : Worksheet α, fs cfg.template_path = some tpl →
      env.loadRaises = false → df.empty = true →
      (export_dataframe_to_template env fs ⟨cfg, none⟩ df ce ih).2.2 =
        ⟨false, "Ошибка экспорта данных", none, none⟩ ∧
      (∀ p, (export_dataframe_to_template env fs ⟨cfg, none⟩ df ce ih).1 p
        = fs p))
  ∧ (∀ tpl : Worksheet α, fs cfg.template_path = some tpl →
      env.loadRaises = false → df.empty = false →
      1 ≤ cfg.start_row → 1 ≤ cfg.start_col → env.saveRaises = true →
      (export_dataframe_to_template env fs ⟨cfg, none⟩ df ce ih).2.2 =
        ⟨false, "Ошибка сохранения файла", none, none⟩ ∧
      (∀ p, (export_dataframe_to_template env fs ⟨cfg, none⟩ df ce ih).1 p
        = fs p))
  ∧ (∀ tpl : Worksheet α, fs cfg.template_path = some tpl →
      env.loadRaises = false → df.empty = false →
      1 ≤ cfg.start_row → 1 ≤ cfg.start_col → env.saveRaises = false →
      (export_dataframe_to_template env fs ⟨cfg, none⟩ df
        ce ih).2.2.success = true ∧
      (export_dataframe_to_template env fs ⟨cfg, none⟩ df
        ce ih).2.2.output_path = some cfg.output_path ∧
      (export_dataframe_to_template env fs ⟨cfg, none⟩ df
        ce ih).2.2.records_count = some df.rows.length)
  ∧ (∀ tpl : Worksheet α, fs cfg.template_path = some tpl →
      env.loadRaises = false → env.deleteRaises = true →
      env.saveRaises = false → df.empty = false →
      1 ≤ cfg.start_row → cfg.start_row ≤ max_row tpl →
      1 ≤ cfg.start_col →
      (clear_existing_data env
        (⟨cfg, some tpl⟩ : ExcelExporter α) none none).2 = false ∧
      (export_dataframe_to_template env fs ⟨cfg, none⟩ df
        ce ih).2.2.success = true) := by
  refine ⟨?_, ?_, ?_, ?_, ?_⟩
  · intro h
    have hp := pipeline_load_fail env fs cfg df ce ih h
    exact ⟨hp.2, hp.1⟩
  · intro tpl htpl hload hemp
    have hp := pipeline_empty env fs cfg tpl df ce ih htpl hload hemp
    exact ⟨hp.2, hp.1⟩
  · intro tpl htpl hload hemp hsr hsc hsv
    obtain ⟨W, hW⟩ := pipeline_to_save env fs cfg tpl df ce ih htpl hload hemp
      hsr hsc
    rw [hW, if_pos hsv]
    exact ⟨rfl, fun p => rfl⟩
  · intro tpl htpl hload hemp hsr hsc hsv
    obtain ⟨W, hW⟩ := pipeline_to_save env fs cfg tpl df ce ih htpl hload hemp
      hsr hsc
    rw [hW, if_neg (by simp [hsv])]
    exact ⟨rfl, rfl, rfl⟩
  · intro tpl htpl hload hdel hsv hemp hsr hle hsc
    constructor
    · unfold clear_existing_data
      simp [pyOrNat, hle, hdel]
    · obtain ⟨W, hW⟩ := pipeline_to_save env fs cfg tpl df ce ih htpl hload
        hemp hsr hsc
      rw [hW, if_neg (by simp [hsv])]

/-- Witness for C5: a missing template fails with the load message, and a
run with a raising clear step still succeeds. -/
theorem claim_C5_witness :
    (export_dataframe_to_template ⟨false, false, false⟩
      ((fun _ => none) : Fs Nat)
      ⟨⟨"t.xlsx", "out.xlsx", "Data", 2, 1, true, true⟩, none⟩
      ⟨[5], [[some 7]]⟩ true false).2.2 =
      ⟨false, "Ошибка загрузки шаблона", none, none⟩ ∧
    (export_dataframe_to_template ⟨false, true, false⟩
      (fun p => if p = "t.xlsx" then some [[some (1 : Nat)], [some 2]]
        else none)
      ⟨⟨"t.xlsx", "out.xlsx", "Data", 2, 1, true, true⟩, none⟩
      ⟨[5], [[some 7]]⟩ true false).2.2.success = true :=
  ⟨((claim_C5 ⟨false, false, false⟩ ((fun _ => none) : Fs Nat)
      ⟨"t.xlsx", "out.xlsx", "Data", 2, 1, true, true⟩
      ⟨[5], [[some 7]]⟩ true false).1 (Or.inl rfl)).1,
   ((claim_C5 ⟨false, true, false⟩
      (fun p => if p = "t.xlsx" then some [[some (1 : Nat)], [some 2]]
        else none)
      ⟨"t.xlsx", "out.xlsx", "Data", 2, 1, true, true⟩
      ⟨[5], [[some 7]]⟩ true false).2.2.2.2 [[some 1], [some 2]] rfl rfl rfl
      rfl rfl (by decide) (by decide) (by decide)).2⟩

/-- C6, corrected: an empty table does not produce a distinct "no data"
outcome — the engine returns `success = false` with the same generic
write-stage message that a genuinely failing write produces (here one
raising on a zero start row), so the outcome is indistinguishable from a
failure; no output file is created. -/
theorem claim_C6_counterexample :
    (export_dataframe_to_template ⟨false, false, false⟩
      (fun p => if p = "t.xlsx" then some [[some (1 : Nat)]] else none)
      ⟨⟨"t.xlsx", "out.xlsx", "Data", 2, 1, true, true⟩, none⟩
      ⟨[5], []⟩ true false).2.2 =
      ⟨false, "Ошибка экспорта данных", none, none⟩ ∧
    (export_dataframe_to_template ⟨false, false, false⟩
      (fun p => if p = "t.xlsx" then some [[some (1 : Nat)]] else none)
      ⟨⟨"t.xlsx", "out.xlsx", "Data", 0, 1, true, true⟩, none⟩
      ⟨[5], [[some 7]]⟩ true false).2.2 =
      ⟨false, "Ошибка экспорта данных", none, none⟩ ∧
    (export_dataframe_to_template ⟨false, false, false⟩
      (fun p => if p = "t.xlsx" then some [[some (1 : Nat)]] else none)
      ⟨⟨"t.xlsx", "out.xlsx", "Data", 2, 1, true, true⟩, none⟩
      ⟨[5], []⟩ true false).1 "out.xlsx" = none := by
  refine ⟨rfl, rfl, rfl⟩

/-- C6 (amended): for every export of an empty table, the engine exits
before saving with `success = false` and the generic write-stage message
(the same message other write failures produce, so not a distinct "no
data" marker), and neither creates nor modifies any file. -/
theorem claim_C6 (env : PyEnv) (fs : Fs α) (cfg : ExcelExportConfig)
    (tpl : Worksheet α) (df : DataFrame α) (ce ih : Bool)
    (htpl : fs cfg.template_path = some tpl)
    (hload : env.loadRaises = false) (hemp : df.empty = true) :
    (export_dataframe_to_template env fs ⟨cfg, none⟩ df ce ih).2.2 =
      ⟨false, "Ошибка экспорта данных", none, none⟩ ∧
    (∀ p, (export_dataframe_to_template env fs ⟨cfg, none⟩ df ce ih).1 p
      = fs p) :=
  ⟨(pipeline_empty env fs cfg tpl df ce ih htpl hload hemp).2,
   (pipeline_empty env fs cfg tpl df ce ih htpl hload hemp).1⟩

/-- Witness for C6 on a concrete empty table. -/
theorem claim_C6_witness :
    (export_dataframe_to_template ⟨false, false, false⟩
      (fun p => if p = "a.xlsx" then some [[some (3 : Nat)]] else none)
      ⟨⟨"a.xlsx", "b.xlsx", "Data", 2, 1, true, true⟩, none⟩
      ⟨[9], []⟩ false true).2.2 =
      ⟨false, "Ошибка экспорта данных", none, none⟩ ∧
    (∀ p, (export_dataframe_to_template ⟨false, false, false⟩
      (fun p => if p = "a.xlsx" then some [[some (3 : Nat)]] else none)
      ⟨⟨"a.xlsx", "b.xlsx", "Data", 2, 1, true, true⟩, none⟩
      ⟨[9], []⟩ false true).1 p =
      (fun p => if p = "a.xlsx" then some [[some (3 : Nat)]] else none) p) :=
  claim_C6 ⟨false, false, false⟩
    (fun p => if p = "a.xlsx" then some [[some (3 : Nat)]] else none)
    ⟨"a.xlsx", "b.xlsx", "Data", 2, 1, true, true⟩ [[some 3]]
    ⟨[9], []⟩ false true rfl rfl rfl

theorem load_template_config (env : PyEnv) (fs : Fs α) (ex : ExcelExporter α) :
    ((load_template env fs ex).1).config = ex.config := by
  unfold load_template
  split
  · rfl
  · split
    · rfl
    · rfl

theorem clear_existing_data_config (env : PyEnv) (ex : ExcelExporter α)
    (a b : Option Nat) :
    ((clear_existing_data env ex a b).1).config = ex.config := by
  unfold clear_existing_data
  cases hws : ex.worksheet with
  | none => rfl
  | some ws =>
    simp only [pyOrNat]
    split
    · split
      · rfl
      · rfl
    · rfl

theorem export_data_config (ex : ExcelExporter α) (df : DataFrame α)
    (ih : Bool) : ((export_data ex df ih).1).config = ex.config := by
  unfold export_data
  split
  · rfl
  · split
    · rfl
    · split
      · rfl
      · rfl

theorem save_fs_frame (env : PyEnv) (fs : Fs α) (ex : ExcelExporter α)
    (p : String) (hp : p ≠ ex.config.output_path) :
    (save env fs ex).1 p = fs p := by
  unfold save
  split
  · rfl
  · split
    · rfl
    · simp only [updateFs]
      rw [if_neg hp]

/-- C10, corrected: the template file is preserved only when the output
path differs from the template path — configuring the export to write
the output onto the template path overwrites the template's bytes. -/
theorem claim_C10_counterexample :
    (export_dataframe_to_template ⟨false, false, false⟩
      (fun p => if p = "a.xlsx" then some [[some (5 : Nat)]] else none)
      ⟨⟨"a.xlsx", "a.xlsx", "Data", 2, 1, true, true⟩, none⟩
      ⟨[1], [[some 7]]⟩ true false).1 "a.xlsx" =
      some [[some 5], [some 7]] ∧
    some [[some (5 : Nat)], [some 7]] ≠ some [[some (5 : Nat)]] := by
  constructor
  · rfl
  · decide

/-- C10 (amended): an export run never touches any file other than the
configured output path — in particular, whenever the template path
differs from the output path, the template file's content is unchanged
whether the run succeeds or fails. -/
theorem claim_C10 (env : PyEnv) (fs : Fs α) (ex : ExcelExporter α)
    (df : DataFrame α) (ce ih : Bool) :
    (∀ p, p ≠ ex.config.output_path →
      (export_dataframe_to_template env fs ex df ce ih).1 p = fs p) ∧
    (ex.config.template_path ≠ ex.config.output_path →
      (export_dataframe_to_template env fs ex df ce ih).1
        ex.config.template_path = fs ex.config.template_path) := by
  have hmain : ∀ p, p ≠ ex.config.output_path →
      (export_dataframe_to_template env fs ex df ce ih).1 p = fs p := by
    intro p hp
    unfold export_dataframe_to_template
    by_cases h1 : (load_template env fs ex).2 = true
    · simp only [h1, Bool.not_true, Bool.false_eq_true, if_false]
      by_cases h2 : (export_data
          (if ce then
            (clear_existing_data env (load_template env fs ex).1 none none).1
          else (load_template env fs ex).1) df ih).2 = true
      · simp only [h2, Bool.not_true, Bool.false_eq_true, if_false]
        have hcfg : ((export_data
            (if ce then
              (clear_existing_data env (load_template env fs ex).1 none none).1
            else (load_template env fs ex).1) df ih).1).config = ex.config := by
          rw [export_data_config]
          cases ce with
          | true =>
            rw [if_pos rfl, clear_existing_data_config, load_template_config]
          | false =>
            rw [if_neg (by simp), load_template_config]
        have hs := save_fs_frame env fs
          ((export_data
            (if ce then
              (clear_existing_data env (load_template env fs ex).1 none none).1
            else (load_template env fs ex).1) df ih).1) p
          (by rw [hcfg]; exact hp)
        by_cases h3 : (save env fs
            ((export_data
              (if ce then
                (clear_existing_data env (load_template env fs ex).1
                  none none).1
              else (load_template env fs ex).1) df ih).1)).2 = true
        · simp only [h3, Bool.not_true, Bool.false_eq_true, if_false]
          exact hs
        · simp only [Bool.not_eq_true] at h3
          simp only [h3, Bool.not_false, if_true]
          exact hs
      · simp only [Bool.not_eq_true] at h2
        simp only [h2, Bool.not_false, if_true]
    · simp only [Bool.not_eq_true] at h1
      simp only [h1, Bool.not_false, if_true]
  exact ⟨hmain, fun ht => hmain ex.config.template_path ht⟩

/-- Witness for C10 at a concrete run with distinct paths. -/
theorem claim_C10_witness :
    (export_dataframe_to_template ⟨false, false, false⟩
      (fun p => if p = "a.xlsx" then some [[some (5 : Nat)]] else none)
      ⟨⟨"a.xlsx", "b.xlsx", "Data", 2, 1, true, true⟩, none⟩
      ⟨[1], [[some 7]]⟩ true false).1 "a.xlsx" =
      (fun p => if p = "a.xlsx" then some [[some (5 : Nat)]] else none)
        "a.xlsx" :=
  (claim_C10 ⟨false, false, false⟩
    (fun p => if p = "a.xlsx" then some [[some (5 : Nat)]] else none)
    ⟨⟨"a.xlsx", "b.xlsx", "Data", 2, 1, true, true⟩, none⟩
    ⟨[1], [[some 7]]⟩ true false).2 (by decide)

/-! ## Batch orchestrator (claim C9) -/

/-- C9 (spec-modelled): the batch loop produces exactly one outcome per
selected view name, in input order, with no silent omission; processing
is not aborted by a per-view failure — in the concrete 3-view scenario
where the 2nd view's template file is missing, the outcome sequence has
length 3 with outcomes 1 and 3 successful and outcome 2 a
"template not found" failure. -/
theorem claim_C9 :
    (∀ (α : Type) (registry : List (List Char × ViewConfig))
      (ds : List Char → Option (DataFrame α)) (troot oroot : String)
      (env : PyEnv) (now : PyDateTime) (fs : Fs α)
      (names : List (List Char)),
      (run_batch registry ds troot oroot env now fs names).2.length =
        names.length)
  ∧ (∀ (α : Type) (registry : List (List Char × ViewConfig))
      (ds : List Char → Option (DataFrame α)) (troot oroot : String)
      (env : PyEnv) (now : PyDateTime) (fs : Fs α)
      (name : List Char) (rest : List (List Char)),
      (run_batch registry ds troot oroot env now fs (name :: rest)).2 =
        (process_view registry ds troot oroot env now fs name).2 ::
        (run_batch registry ds troot oroot env now
          (process_view registry ds troot oroot env now fs name).1 rest).2)
  ∧ ((run_batch
      [("v1".data, ⟨"v1".data, "t1.xlsx".data, "o1.xlsx".data, 2, 1⟩),
       ("v2".data, ⟨"v2".data, "t2.xlsx".data, "o2.xlsx".data, 2, 1⟩),
       ("v3".data, ⟨"v3".data, "t3.xlsx".data, "o3.xlsx".data, 2, 1⟩)]
      (fun _ => some (⟨[1], [[some 42]]⟩ : DataFrame Nat))
      "tpl/" "out/" ⟨false, false, false⟩ ⟨2025, 1, 2, 3, 4, 5⟩
      (fun p => if p = "tpl/t1.xlsx" then some [[some 1]]
        else if p = "tpl/t3.xlsx" then some [[some 3]] else none)
      ["v1".data, "v2".data, "v3".data]).2.map
        (fun r => (r.success, r.message)) =
      [(true, "Данные успешно экспортированы"),
       (false, "template not found"),
       (true, "Данные успешно экспортированы")]) := by
  refine ⟨?_, ?_, ?_⟩
  · intro α registry ds troot oroot env now fs names
    induction names generalizing fs with
    | nil => rfl
    | cons n rest ih =>
      simp only [run_batch, List.length_cons]
      rw [ih]
  · intro α registry ds troot oroot env now fs name rest
    rfl
  · rfl

end ViewExport
